import Mathlib

/-!
# Verification of the Kora n8n nodes' signing / idempotency / decision-gating core

Shallow embedding of the decision-relevant parts of the `n8n-nodes-kora`
repository:

* the response-classification tail of `authorizeSpend` and the fail-closed
  error handler `handleKoraError` (`src/shared/koraClient.ts`),
* the `KoraGate` node's per-item flow: budget pre-check, authorize call,
  outcome routing (`nodes/KoraGate/KoraGate.node.ts`),
* the `Kora` node's per-item catch logic including the `continueOnFail`
  branch (`nodes/Kora/Kora.node.ts`),
* the canonical JSON encoder `canonicalize` / `sortKeys` and the agent-secret
  parser `parseAgentSecret` (`nodes/Kora/transport/koraClient.ts`),
* the two `deriveIntentId` implementations (SHA-256 based in
  `nodes/Kora/transport/koraClient.ts`, UUIDv5 based in
  `src/shared/koraClient.ts`).

JavaScript `undefined`/`null`-coalescing (`??`) is modelled with `Option` and
`<|>`; machine integers stay in `Nat`/`Int` with explicit `% 2^32` where the
hash functions overflow; thrown exceptions become explicit error values
(`Except`, or dedicated "thrown" constructors).
-/

namespace KoraModel

/- ===================================================================
   Shared response / error shapes
   =================================================================== -/

/-- The fields of the authorize-response JSON that the nodes read
(`result.decision`, `result.status`, `result.decision_id`,
`result.authorization_id`, `result.reason_code`, `result.notary_seal`,
`result.payment_instruction`, `result.limits_after_approval`).
`none` models an absent / `undefined` / `null` JSON field. -/
structure AuthBody where
  decision : Option String
  statusField : Option String
  decisionId : Option String
  authorizationId : Option String
  reasonCode : Option String
  notarySeal : Option String
  paymentInstruction : Option String
  limitsDailyRemaining : Option Int
  limitsMonthlyRemaining : Option Int
deriving DecidableEq

/-- Outcome of the `fetch` call inside `authorizeSpend`: either an HTTP
response with a status and parsed JSON body, or a rejation at transport level
(connection refused, timeout, DNS failure), carrying the JS error's `code`
and `cause.code` properties. -/
inductive FetchOutcome where
  | response (status : Nat) (body : AuthBody)
  | failure (code : Option String) (causeCode : Option String)
deriving DecidableEq

/-- The JS error shape inspected by `handleKoraError`: `error.statusCode`,
`error.response?.status`, `error.code`, `error.cause?.code`, `error.message`.
Absent properties are `none` (JS `undefined >= 500` is `false`). -/
structure JsError where
  statusCode : Option Nat
  responseStatus : Option Nat
  code : Option String
  causeCode : Option String
  message : String
deriving DecidableEq

/-- The classification tail of `authorizeSpend`
(`src/shared/koraClient.ts` lines 100–120): a transport-level `fetch`
rejection propagates as the thrown error; a response with `status >= 500`
throws an error whose `statusCode` is the HTTP status; every other response
(including 409 and any 200 body) resolves to its parsed JSON body. -/
def authorizeSpend (r : FetchOutcome) : Except JsError AuthBody :=
  match r with
  | .failure code causeCode =>
      .error { statusCode := none, responseStatus := none, code := code,
               causeCode := causeCode, message := "fetch failed" }
  | .response status body =>
      if 500 ≤ status then
        .error { statusCode := some status, responseStatus := none, code := none,
                 causeCode := none, message := s!"Kora server error: HTTP {status}" }
      else
        .ok body

/-- The `NodeOperationError` thrown by `handleKoraError`. All three
constructors are throws: `handleKoraError` has return type `never`. -/
inductive Thrown where
  | unavailableServer (status : Option Nat)
  | unavailableNetwork
  | generic (message : String)
deriving DecidableEq

/-- JS comparison `x >= 500` where `x` may be `undefined`
(`undefined >= 500` is `false`). -/
def optGe500 : Option Nat → Bool
  | some s => 500 ≤ s
  | none => false

/-- `handleKoraError` (`src/shared/koraClient.ts` lines 127–151): server
errors (`statusCode >= 500` or `response?.status >= 500`) and network errors
(`code` is ECONNREFUSED / ETIMEDOUT, or `cause?.code` is ECONNREFUSED) throw
the two fail-closed messages; anything else throws a generic
`NodeOperationError`. Every branch throws. -/
def handleKoraError (e : JsError) : Thrown :=
  if optGe500 e.statusCode || optGe500 e.responseStatus then
    .unavailableServer (e.statusCode <|> e.responseStatus)
  else if e.code = some "ECONNREFUSED" ∨ e.code = some "ETIMEDOUT" ∨
          e.causeCode = some "ECONNREFUSED" then
    .unavailableNetwork
  else
    .generic e.message

/- ===================================================================
   KoraGate: outcome routing (KoraGate.node.ts lines 115–208)
   =================================================================== -/

/-- The JSON the gate pushes on the Approved channel
(`KoraGate.node.ts` lines 179–191): note `seal := result.notary_seal ?? null`
and `decision_id := result.decision_id ?? result.authorization_id`. -/
structure ApprovedJson where
  decision : String
  decisionId : Option String
  sealJson : Option String
  payment : Option String
deriving DecidableEq

/-- The JSON the gate pushes on the Denied channel
(`KoraGate.node.ts` lines 193–200). -/
structure DeniedJson where
  decision : String
  decisionId : Option String
  reasonCode : Option String
deriving DecidableEq

/-- Where one input item of the `KoraGate` node ends up: one of the three
output channels (Approved / Denied / Insufficient), or a fatal throw that
aborts the item (the node has no continue-on-fail branch: its only catch
calls `handleKoraError`, which always throws). -/
inductive GateRouted where
  | approved (j : ApprovedJson)
  | denied (j : DeniedJson)
  | insufficient (remainingCents : Int) (requiredCents : Int)
  | fatal (t : Thrown)
deriving DecidableEq

/-- Routing of a resolved authorize body (`KoraGate.node.ts` lines 176–201):
`decision := result.decision ?? result.status`; `decision === 'APPROVED'`
goes to the Approved channel, every other value — recognized or not — goes to
the Denied channel. -/
def routeDecision (body : AuthBody) : GateRouted :=
  let decision := body.decision <|> body.statusField
  if decision = some "APPROVED" then
    .approved { decision := "APPROVED",
                decisionId := body.decisionId <|> body.authorizationId,
                sealJson := body.notarySeal,
                payment := body.paymentInstruction }
  else
    .denied { decision := "DENIED",
              decisionId := body.decisionId <|> body.authorizationId,
              reasonCode := body.reasonCode }

/-- The authorize phase of one gate item: call `authorizeSpend`; a thrown
error is handed to `handleKoraError` (fatal), a resolved body is routed by
decision. This is also the whole per-item flow of the `KoraAuthorize` node. -/
def authorizePhase (r : FetchOutcome) : GateRouted :=
  match authorizeSpend r with
  | .error e => .fatal (handleKoraError e)
  | .ok body => routeDecision body

/- ===================================================================
   KoraGate: budget pre-check (KoraGate.node.ts lines 134–159)
   =================================================================== -/

/-- The budget snapshot fields the gate and budget nodes read
(`budget.daily.remainingCents`, `budget.daily.limitCents`,
`budget.spendAllowed`, `budget.status`). -/
structure BudgetSnapshot where
  dailyRemainingCents : Int
  dailyLimitCents : Int
  spendAllowed : Bool
  status : String
deriving DecidableEq

/-- `threshold = minimumRaw > 0 ? minimumRaw : amountCents`
(`KoraGate.node.ts` line 144). -/
def gateThreshold (minimumRaw amountCents : Int) : Int :=
  if 0 < minimumRaw then minimumRaw else amountCents

/-- The gate's short-circuit condition (`KoraGate.node.ts` line 146):
`budget.daily.remainingCents < threshold || !budget.spendAllowed`.
The mandate `status` field is not consulted here. -/
def budgetInsufficient (minimumRaw amountCents : Int) (b : BudgetSnapshot) : Bool :=
  decide (b.dailyRemainingCents < gateThreshold minimumRaw amountCents) || !b.spendAllowed

/-- One full `KoraGate` item (`KoraGate.node.ts` lines 133–204): optional
budget pre-check with short-circuit to the Insufficient channel (`continue`),
otherwise the authorize phase. -/
def gateItem (preCheck : Bool) (minimumRaw amountCents : Int) (b : BudgetSnapshot)
    (r : FetchOutcome) : GateRouted :=
  if preCheck && budgetInsufficient minimumRaw amountCents b then
    .insufficient b.dailyRemainingCents (gateThreshold minimumRaw amountCents)
  else
    authorizePhase r

/-- Observable actions of one gate item, in program order: the budget query,
the remote authorize call (building/signing/sending the signed request), and
the terminal event. -/
inductive Action where
  | budgetQuery
  | authorizeCall
  | emitInsufficient
  | emitApproved
  | emitDenied
  | fatalStop
deriving DecidableEq

/-- Terminal action of a routed outcome. -/
def routedAction : GateRouted → Action
  | .approved _ => .emitApproved
  | .denied _ => .emitDenied
  | .insufficient _ _ => .emitInsufficient
  | .fatal _ => .fatalStop

/-- Trace of one `KoraGate` item: with the pre-check enabled the budget is
queried first; if the short-circuit condition holds the item is emitted on
the Insufficient channel and control continues to the next item — the
authorize call is never reached. Otherwise (or with the pre-check disabled)
the signed authorize request is issued. -/
def gateItemTrace (preCheck : Bool) (minimumRaw amountCents : Int) (b : BudgetSnapshot)
    (r : FetchOutcome) : List Action :=
  if preCheck then
    if budgetInsufficient minimumRaw amountCents b then
      [.budgetQuery, .emitInsufficient]
    else
      [.budgetQuery, .authorizeCall, routedAction (authorizePhase r)]
  else
    [.authorizeCall, routedAction (authorizePhase r)]

/- ===================================================================
   Kora node: per-item catch logic (Kora.node.ts lines 256–315)
   =================================================================== -/

/-- The JS error shape inspected by the `Kora` node's catch block:
whether it is a `NodeOperationError`, and `error.httpCode`,
`error.response?.status`, `error.statusCode`, `error.message`. -/
structure KoraNodeError where
  isNodeOperationError : Bool
  httpCode : Option Nat
  responseStatus : Option Nat
  statusCode : Option Nat
  message : String
deriving DecidableEq

/-- How the `Kora` node's catch block disposes of an error
(`Kora.node.ts` lines 272–314). `continuedAsDenied` is the
`this.continueOnFail()` branch: the error is pushed as
`{ error: error.message }` onto the *Denied* output channel and the loop
continues. All other constructors are thrown `NodeOperationError`s that
abort the execution. -/
inductive KoraCatch where
  | continuedAsDenied (errorMessage : String)
  | rethrown (message : String)
  | badRequest
  | invalidCredentials
  | forbidden
  | notFound
  | rateLimited
  | serverError (status : Nat)
  | unavailable (message : String)
deriving DecidableEq

/-- The catch block of `Kora.execute` (`Kora.node.ts` lines 272–314), in
source order: the continue-on-fail branch first, then `NodeOperationError`
rethrow, then `status = Number(httpCode ?? response?.status ?? statusCode ?? 0)`
dispatch. -/
def koraCatch (continueOnFail : Bool) (e : KoraNodeError) : KoraCatch :=
  if continueOnFail then
    .continuedAsDenied e.message
  else if e.isNodeOperationError then
    .rethrown e.message
  else
    let status := ((e.httpCode <|> e.responseStatus) <|> e.statusCode).getD 0
    if status = 400 then .badRequest
    else if status = 401 then .invalidCredentials
    else if status = 403 then .forbidden
    else if status = 404 then .notFound
    else if status = 429 then .rateLimited
    else if 500 ≤ status then .serverError status
    else .unavailable e.message

/-- Outcome of `helpers.httpRequest` in `doSpend`: a resolved 2xx response
with the normalized body, or a thrown error (n8n's `httpRequest` rejects on
error statuses and on transport failures). -/
inductive SpendFetch where
  | ok (body : AuthBody)
  | threw (e : KoraNodeError)
deriving DecidableEq

/-- Result of processing one item of the `Kora` node's `spend` operation. -/
inductive KoraSpendResult where
  | approvedItem (body : AuthBody)
  | deniedItem (body : AuthBody)
  | deniedErrorItem (errorMessage : String)
  | fatal (c : KoraCatch)
deriving DecidableEq

/-- One `spend` item of `Kora.execute` (`Kora.node.ts` lines 256–315): a
resolved body routes on `result.decision === 'APPROVED'`; a thrown error
goes through the catch block — with `continueOnFail` enabled it becomes an
item on the Denied output channel, otherwise the throw is fatal. -/
def koraSpendItem (continueOnFail : Bool) (r : SpendFetch) : KoraSpendResult :=
  match r with
  | .ok body =>
      if body.decision = some "APPROVED" then .approvedItem body else .deniedItem body
  | .threw e =>
      match koraCatch continueOnFail e with
      | .continuedAsDenied m => .deniedErrorItem m
      | c => .fatal c

/- ===================================================================
   Concrete fixtures used by counterexamples and witnesses
   =================================================================== -/

/-- A 200-body with an unrecognized decision value. -/
def weirdBody : AuthBody :=
  { decision := some "MAYBE", statusField := none, decisionId := some "dec_1",
    authorizationId := none, reasonCode := some "UNRECOGNIZED", notarySeal := none,
    paymentInstruction := none, limitsDailyRemaining := none, limitsMonthlyRemaining := none }

/-- The body of a 409 replay-mismatch response (no `decision` field). -/
def body409 : AuthBody :=
  { decision := none, statusField := none, decisionId := none,
    authorizationId := none, reasonCode := some "INTENT_REPLAY_MISMATCH", notarySeal := none,
    paymentInstruction := none, limitsDailyRemaining := none, limitsMonthlyRemaining := none }

/-- A 200 APPROVED body carrying no seal artifact. -/
def approvedNoSealBody : AuthBody :=
  { decision := some "APPROVED", statusField := none, decisionId := some "dec_9",
    authorizationId := none, reasonCode := none, notarySeal := none,
    paymentInstruction := none, limitsDailyRemaining := none, limitsMonthlyRemaining := none }

/-- A 200 DENIED body that (in violation of the wire contract) carries a seal. -/
def deniedWithSealBody : AuthBody :=
  { decision := some "DENIED", statusField := none, decisionId := some "dec_10",
    authorizationId := none, reasonCode := some "DAILY_LIMIT_EXCEEDED",
    notarySeal := some "sealArtifact", paymentInstruction := none,
    limitsDailyRemaining := none, limitsMonthlyRemaining := none }

/-- A body whose decision arrives in the legacy `status` field, with a seal. -/
def statusApprovedBody : AuthBody :=
  { decision := none, statusField := some "APPROVED", decisionId := none,
    authorizationId := some "auth_7", reasonCode := none, notarySeal := some "sealed",
    paymentInstruction := some "iban", limitsDailyRemaining := none,
    limitsMonthlyRemaining := none }

/-- The HTTP-503 error as the `Kora` node's catch block sees it. -/
def err503 : KoraNodeError :=
  { isNodeOperationError := false, httpCode := none, responseStatus := some 503,
    statusCode := none, message := "Service Unavailable" }

/-- A suspended mandate that still has budget and `spendAllowed = true`. -/
def suspendedRichBudget : BudgetSnapshot :=
  { dailyRemainingCents := 10000, dailyLimitCents := 100000,
    spendAllowed := true, status := "suspended" }

/-- Active budget with exactly the requested amount remaining. -/
def exactBudget : BudgetSnapshot :=
  { dailyRemainingCents := 5000, dailyLimitCents := 100000,
    spendAllowed := true, status := "active" }

/-- Active budget one cent short of the requested amount. -/
def shortBudget : BudgetSnapshot :=
  { dailyRemainingCents := 4999, dailyLimitCents := 100000,
    spendAllowed := true, status := "active" }

/-- An exhausted budget. -/
def exhaustedBudget : BudgetSnapshot :=
  { dailyRemainingCents := 0, dailyLimitCents := 100000,
    spendAllowed := true, status := "active" }

/- ===================================================================
   C5: the budget pre-check condition
   =================================================================== -/

/-- The pre-check condition exactly as claim C5 states it: insufficient when
`dailyRemainingCents < threshold` OR `status != active` OR spend not
allowed. (The code omits the status disjunct.) -/
def insufficientPerClaim (minimumRaw amountCents : Int) (b : BudgetSnapshot) : Bool :=
  decide (b.dailyRemainingCents < gateThreshold minimumRaw amountCents) ||
    decide (b.status ≠ "active") || !b.spendAllowed

/- ===================================================================
   Canonical JSON encoder (nodes/Kora/transport/koraClient.ts lines 44–58)
   =================================================================== -/

/-- The JSON-like values JavaScript can hand to `canonicalize`. JS numbers
are kept apart by kind: `jint` for integer-valued numbers (the only kind the
protocol uses), `jnan` for `NaN` (which `JSON.stringify` renders as `null`),
and `jundef` for `undefined` (whose keys `JSON.stringify` omits inside
objects and renders as `null` inside arrays). Objects are insertion-ordered
association lists, as JS objects are. -/
inductive J where
  | jnull
  | jbool (b : Bool)
  | jint (n : Int)
  | jnan
  | jundef
  | jstr (s : String)
  | jarr (elems : List J)
  | jobj (fields : List (String × J))

/-- Lowercase hex digit, for `\u00XX` escapes. -/
def hexDigitChar (n : Nat) : Char :=
  if n < 10 then Char.ofNat (48 + n) else Char.ofNat (87 + n)

/-- One character of ECMA-262 `QuoteJSONString`: escape `"`, `\`, the named
control characters, any other control character as `\u00XX`; everything else
is emitted literally. (JS additionally escapes lone surrogates, which cannot
occur in a Lean `Char`.) -/
def escapeChar (c : Char) : String :=
  if c = '"' then "\\\""
  else if c = '\\' then "\\\\"
  else if c.toNat = 8 then "\\b"
  else if c.toNat = 9 then "\\t"
  else if c.toNat = 10 then "\\n"
  else if c.toNat = 12 then "\\f"
  else if c.toNat = 13 then "\\r"
  else if c.toNat < 32 then
    "\\u00" ++ String.singleton (hexDigitChar (c.toNat / 16))
      ++ String.singleton (hexDigitChar (c.toNat % 16))
  else
    String.singleton c

/-- ECMA-262 `QuoteJSONString`: the JSON string literal for `s`. -/
def quoteJson (s : String) : String :=
  "\"" ++ String.join (s.toList.map escapeChar) ++ "\""

/-- `,`-joined member list, as `JSON.stringify` emits it (compact form). -/
def joinComma : List String → String
  | [] => ""
  | [s] => s
  | s :: rest => s ++ "," ++ joinComma rest

mutual

/-- `JSON.stringify` (compact, no spacing argument), restricted to the value
kinds of `J`. `none` is JS `undefined` (the result of stringifying
`undefined` itself); object members whose value stringifies to `undefined`
are omitted, array elements become `null`, `NaN` becomes `null`. -/
def stringify : J → Option String
  | .jnull => some "null"
  | .jbool b => some (cond b "true" "false")
  | .jint n => some (toString n)
  | .jnan => some "null"
  | .jundef => none
  | .jstr s => some (quoteJson s)
  | .jarr xs => some ("[" ++ joinComma (stringifyArr xs) ++ "]")
  | .jobj fs => some ("\x7b" ++ joinComma (stringifyFields fs) ++ "\x7d")

/-- The rendered elements of an array (`undefined` elements become
`null`). -/
def stringifyArr : List J → List String
  | [] => []
  | x :: xs => ((stringify x).getD "null") :: stringifyArr xs

/-- The rendered `"key":value` members of an object, omitting members whose
value stringifies to `undefined`. -/
def stringifyFields : List (String × J) → List String
  | [] => []
  | (k, v) :: fs =>
    match stringify v with
    | none => stringifyFields fs
    | some sv => (quoteJson k ++ ":" ++ sv) :: stringifyFields fs
end

/-- The UTF-16 code units of one character (JS strings are UTF-16; the
default `Array.prototype.sort()` comparator compares strings unit by
unit). -/
def charUtf16 (c : Char) : List Nat :=
  if c.toNat < 65536 then [c.toNat]
  else [55296 + (c.toNat - 65536) / 1024, 56320 + (c.toNat - 65536) % 1024]

/-- The UTF-16 code-unit sequence of a string. -/
def utf16Units (s : String) : List Nat :=
  (s.toList.map charUtf16).flatten

/-- Lexicographic ≤ on code-unit sequences: exactly the order JS
`String.prototype.<` / default `sort()` induces. -/
def lexLe : List Nat → List Nat → Bool
  | [], _ => true
  | _ :: _, [] => false
  | a :: as, b :: bs => if a < b then true else if b < a then false else lexLe as bs

/-- JS default string sort order on keys. -/
def keyLe (a b : String) : Bool :=
  lexLe (utf16Units a) (utf16Units b)

/-- Key order lifted to object entries. -/
def entryLe (p q : String × J) : Bool :=
  keyLe p.1 q.1

/-- Insertion step of a stable sort by `le`. -/
def insertLe (le : α → α → Bool) (x : α) : List α → List α
  | [] => [x]
  | y :: ys => if le x y then x :: y :: ys else y :: insertLe le x ys

/-- Stable sort by `le` (insertion sort). `Object.keys(obj).sort()` is a
stable comparison sort under the same total key order, so it produces the
same sequence on the duplicate-free key lists a JS object can have. -/
def sortLe (le : α → α → Bool) : List α → List α
  | [] => []
  | x :: xs => insertLe le x (sortLe le xs)

/- `sortKeys` (`nodes/Kora/transport/koraClient.ts` lines 44–54):
`null`/`undefined` and primitives are returned as-is, arrays map `sortKeys`
over their elements in order, and objects are rebuilt with their keys in
sorted order and `sortKeys` applied to each value. (The source sorts the
keys first and then recurses into the values; recursing first and then
sorting produces the identical object since the comparator reads only the
keys, which the recursion leaves untouched.) -/
mutual

/-- `sortKeys`: recursively key-sort a JSON value. -/
def sortKeys : J → J
  | .jnull => .jnull
  | .jbool b => .jbool b
  | .jint n => .jint n
  | .jnan => .jnan
  | .jundef => .jundef
  | .jstr s => .jstr s
  | .jarr xs => .jarr (sortKeysArr xs)
  | .jobj fs => .jobj (sortLe entryLe (sortKeysFields fs))

/-- `sortKeys` mapped over array elements (order preserved). -/
def sortKeysArr : List J → List J
  | [] => []
  | x :: xs => sortKeys x :: sortKeysArr xs

/-- `sortKeys` mapped over entry values (keys and order untouched). -/
def sortKeysFields : List (String × J) → List (String × J)
  | [] => []
  | (k, v) :: fs => (k, sortKeys v) :: sortKeysFields fs
end

/-- `canonicalize` (`nodes/Kora/transport/koraClient.ts` lines 56–58):
`JSON.stringify(sortKeys(obj))`. The argument is a `Record<string, any>`,
so the stringification always yields a string; the `getD` default is dead
code mirroring `JSON.stringify(undefined) === undefined`. -/
def canonicalize (fields : List (String × J)) : String :=
  (stringify (sortKeys (.jobj fields))).getD "undefined"

/- ===================================================================
   Association-list lookups (JS object member access)
   =================================================================== -/

/-- `obj[k]`: the value at the first entry with key `k`. -/
def lookupJ (k : String) : List (String × J) → Option J
  | [] => none
  | (k', v) :: fs => if k' = k then some v else lookupJ k fs

/-- "Same key-value contents": equal values, arrays of equal length with
pointwise-equivalent elements in the same order, and objects with
duplicate-free keys whose lookups agree up to the relation — i.e. the same
finite mapping regardless of entry insertion order, at every nesting
level. -/
inductive EquivJ : J → J → Prop where
  | refl (x : J) : EquivJ x x
  | arr (xs ys : List J) (hlen : xs.length = ys.length)
      (h : ∀ (i : Nat) (hi : i < xs.length) (hj : i < ys.length),
        EquivJ (xs.get ⟨i, hi⟩) (ys.get ⟨i, hj⟩)) :
      EquivJ (.jarr xs) (.jarr ys)
  | obj (fs gs : List (String × J))
      (hf : (fs.map Prod.fst).Nodup) (hg : (gs.map Prod.fst).Nodup)
      (hnone : ∀ k, lookupJ k fs = none → lookupJ k gs = none)
      (hnone' : ∀ k, lookupJ k gs = none → lookupJ k fs = none)
      (hvals : ∀ k v w, lookupJ k fs = some v → lookupJ k gs = some w → EquivJ v w) :
      EquivJ (.jobj fs) (.jobj gs)

/- ===================================================================
   parseAgentSecret (nodes/Kora/transport/koraClient.ts lines 13–35)
   =================================================================== -/

/-- Value of a base64 alphabet character (standard and URL-safe variants,
both of which Node accepts); `none` for every other character, padding `=`
included — `Buffer.from(s, 'base64')` is forgiving and skips characters it
does not recognize rather than failing. -/
def b64Val (c : Char) : Option Nat :=
  if 65 ≤ c.toNat ∧ c.toNat ≤ 90 then some (c.toNat - 65)
  else if 97 ≤ c.toNat ∧ c.toNat ≤ 122 then some (c.toNat - 71)
  else if 48 ≤ c.toNat ∧ c.toNat ≤ 57 then some (c.toNat + 4)
  else if c = '+' ∨ c = '-' then some 62
  else if c = '/' ∨ c = '_' then some 63
  else none

/-- Pack 6-bit groups into bytes: four sextets make three bytes; a trailing
group of three sextets makes two bytes, of two makes one byte, and a lone
trailing sextet is dropped. -/
def b64Groups : List Nat → List Nat
  | a :: b :: c :: d :: rest =>
      (a * 4 + b / 16) :: ((b % 16) * 16 + c / 4) :: ((c % 4) * 64 + d) :: b64Groups rest
  | [a, b, c] => [a * 4 + b / 16, (b % 16) * 16 + c / 4]
  | [a, b] => [a * 4 + b / 16]
  | _ => []

/-- `Buffer.from(s, 'base64')`: skip non-alphabet characters, then pack the
sextets. (Exact for inputs whose non-padding characters are alphabet
characters — every input in this development.) -/
def nodeBase64Decode (s : List Char) : List Nat :=
  b64Groups (s.filterMap b64Val)

/-- Standard base64 alphabet character of a sextet. -/
def b64Char (n : Nat) : Char :=
  if n < 26 then Char.ofNat (65 + n)
  else if n < 52 then Char.ofNat (71 + n)
  else if n < 62 then Char.ofNat (n - 4)
  else if n = 62 then '+'
  else '/'

/-- `buf.toString('base64')`: standard base64 with `=` padding. -/
def b64EncGroups : List Nat → List Char
  | b1 :: b2 :: b3 :: rest =>
      b64Char (b1 / 4) :: b64Char ((b1 % 4) * 16 + b2 / 16)
        :: b64Char ((b2 % 16) * 4 + b3 / 64) :: b64Char (b3 % 64) :: b64EncGroups rest
  | [b1, b2] => [b64Char (b1 / 4), b64Char ((b1 % 4) * 16 + b2 / 16),
                 b64Char ((b2 % 16) * 4), '=']
  | [b1] => [b64Char (b1 / 4), b64Char ((b1 % 4) * 16), '=', '=']
  | [] => []

/-- Value of a hex digit (both cases); `none` otherwise. -/
def hexVal (c : Char) : Option Nat :=
  if 48 ≤ c.toNat ∧ c.toNat ≤ 57 then some (c.toNat - 48)
  else if 97 ≤ c.toNat ∧ c.toNat ≤ 102 then some (c.toNat - 87)
  else if 65 ≤ c.toNat ∧ c.toNat ≤ 70 then some (c.toNat - 55)
  else none

/-- `Buffer.from(s, 'hex')`: decode digit pairs; stop at the first pair with
an invalid digit, and drop a lone trailing digit — Node truncates instead of
failing. -/
def nodeHexDecode : List Char → List Nat
  | c1 :: c2 :: rest =>
    match hexVal c1, hexVal c2 with
    | some hi, some lo => (hi * 16 + lo) :: nodeHexDecode rest
    | _, _ => []
  | _ => []

/-- A byte as two lowercase hex digits. -/
def hexLower : List Nat → List Char
  | [] => []
  | b :: bs => hexDigitChar (b / 16) :: hexDigitChar (b % 16) :: hexLower bs

/-- UTF-8 encoding of one character, in `/`-and-`%` arithmetic (Lean `Char`
carries only Unicode scalar values, so no surrogate can occur). -/
def utf8EncodeChar (c : Char) : List Nat :=
  if c.toNat < 128 then [c.toNat]
  else if c.toNat < 2048 then [192 + c.toNat / 64, 128 + c.toNat % 64]
  else if c.toNat < 65536 then
    [224 + c.toNat / 4096, 128 + (c.toNat / 64) % 64, 128 + c.toNat % 64]
  else
    [240 + c.toNat / 262144, 128 + (c.toNat / 4096) % 64,
     128 + (c.toNat / 64) % 64, 128 + c.toNat % 64]

/-- UTF-8 encoding of a character sequence. -/
def utf8Encode (l : List Char) : List Nat :=
  (l.map utf8EncodeChar).flatten

/-- A UTF-8 continuation byte. -/
def isCont (b : Nat) : Bool :=
  decide (128 ≤ b) && decide (b ≤ 191)

/-- U+FFFD REPLACEMENT CHARACTER. -/
def replChar : Char := Char.ofNat 65533

/-- Lower bound of the second byte after lead `b0` of a 3-byte sequence
(0xE0 forbids overlong encodings). -/
def cont2Lo (b0 : Nat) : Nat := if b0 = 224 then 160 else 128

/-- Upper bound of the second byte after lead `b0` of a 3-byte sequence
(0xED excludes surrogates). -/
def cont2Hi (b0 : Nat) : Nat := if b0 = 237 then 159 else 191

/-- Lower bound of the second byte after lead `b0` of a 4-byte sequence
(0xF0 forbids overlong encodings). -/
def cont3Lo (b0 : Nat) : Nat := if b0 = 240 then 144 else 128

/-- Upper bound of the second byte after lead `b0` of a 4-byte sequence
(0xF4 caps at U+10FFFF). -/
def cont3Hi (b0 : Nat) : Nat := if b0 = 244 then 143 else 191

/-- The WHATWG UTF-8 decoder, as `buf.toString('utf-8')` behaves: malformed
input produces U+FFFD and decoding restarts at the offending byte. -/
def utf8Decode : List Nat → List Char
  | [] => []
  | b0 :: rest =>
    if b0 < 128 then Char.ofNat b0 :: utf8Decode rest
    else if 194 ≤ b0 ∧ b0 ≤ 223 then
      match rest with
      | [] => [replChar]
      | b1 :: rest' =>
        if isCont b1 then Char.ofNat ((b0 - 192) * 64 + (b1 - 128)) :: utf8Decode rest'
        else replChar :: utf8Decode (b1 :: rest')
    else if 224 ≤ b0 ∧ b0 ≤ 239 then
      match rest with
      | [] => [replChar]
      | b1 :: rest' =>
        if cont2Lo b0 ≤ b1 ∧ b1 ≤ cont2Hi b0 then
          match rest' with
          | [] => [replChar]
          | b2 :: rest'' =>
            if isCont b2 then
              Char.ofNat ((b0 - 224) * 4096 + (b1 - 128) * 64 + (b2 - 128))
                :: utf8Decode rest''
            else replChar :: utf8Decode (b2 :: rest'')
        else replChar :: utf8Decode (b1 :: rest')
    else if 240 ≤ b0 ∧ b0 ≤ 244 then
      match rest with
      | [] => [replChar]
      | b1 :: rest' =>
        if cont3Lo b0 ≤ b1 ∧ b1 ≤ cont3Hi b0 then
          match rest' with
          | [] => [replChar]
          | b2 :: rest'' =>
            if isCont b2 then
              match rest'' with
              | [] => [replChar]
              | b3 :: rest3 =>
                if isCont b3 then
                  Char.ofNat ((b0 - 240) * 262144 + (b1 - 128) * 4096
                      + (b2 - 128) * 64 + (b3 - 128))
                    :: utf8Decode rest3
                else replChar :: utf8Decode (b3 :: rest3)
            else replChar :: utf8Decode (b2 :: rest'')
        else replChar :: utf8Decode (b1 :: rest')
    else replChar :: utf8Decode rest

/-- Split at the first occurrence of `sep`: `s.indexOf(sep)` plus the two
`slice`s around it; `none` when `indexOf` returns `-1`. -/
def splitAtChar (sep : Char) : List Char → Option (List Char × List Char)
  | [] => none
  | c :: cs =>
    if c = sep then some ([], cs)
    else
      match splitAtChar sep cs with
      | none => none
      | some (pre, post) => some (c :: pre, post)

/-- The three failure modes of `parseAgentSecret`, in the order the source
checks them. -/
inductive SecretError where
  | badPrefix
  | missingSeparator
  | badSeedLength (got : Nat)
deriving DecidableEq

/-- `parseAgentSecret` (`nodes/Kora/transport/koraClient.ts` lines 13–35):
check the `kora_agent_sk_` prefix, base64-decode the remainder and read it
as UTF-8, split at the first `:` into agent id and hex seed, hex-decode the
seed, and require exactly 32 bytes. The base64 and hex decoders are Node's
forgiving ones and cannot fail. (Splitting the decoded character sequence at
the first `:` is exactly `indexOf(':')`/`slice`; `0x3A` can never be part of
a multi-byte UTF-8 sequence, so byte- and character-level splits agree.) -/
def parseAgentSecret (secret : String) : Except SecretError (String × List Nat) :=
  if "kora_agent_sk_".toList.isPrefixOf secret.toList then
    match splitAtChar ':' (utf8Decode (nodeBase64Decode (secret.toList.drop 14))) with
    | none => .error .missingSeparator
    | some (idChars, seedChars) =>
      let privateKey := nodeHexDecode seedChars
      if privateKey.length = 32 then .ok (String.mk idChars, privateKey)
      else .error (.badSeedLength privateKey.length)
  else .error .badPrefix

/- ===================================================================
   The two deriveIntentId implementations (C3)
   =================================================================== -/

/-- Truncation to 32 bits. -/
def w32 (x : Nat) : Nat := x % 4294967296

/-- 32-bit rotate right. -/
def rotr32 (n x : Nat) : Nat := w32 (x / 2 ^ n + x % 2 ^ n * 2 ^ (32 - n))

/-- 32-bit rotate left. -/
def rotl32 (n x : Nat) : Nat := w32 (x % 2 ^ (32 - n) * 2 ^ n + x / 2 ^ (32 - n))

/-- 32-bit complement (arguments here are always < 2^32). -/
def not32 (x : Nat) : Nat := 4294967295 - x

/-- SHA-256 Ch. -/
def ch32 (x y z : Nat) : Nat := (x &&& y) ^^^ (not32 x &&& z)

/-- SHA-256 Maj. -/
def maj32 (x y z : Nat) : Nat := (x &&& y) ^^^ (x &&& z) ^^^ (y &&& z)

/-- SHA-256 Σ0. -/
def bigSigma0 (x : Nat) : Nat := rotr32 2 x ^^^ rotr32 13 x ^^^ rotr32 22 x

/-- SHA-256 Σ1. -/
def bigSigma1 (x : Nat) : Nat := rotr32 6 x ^^^ rotr32 11 x ^^^ rotr32 25 x

/-- SHA-256 σ0. -/
def smallSigma0 (x : Nat) : Nat := rotr32 7 x ^^^ rotr32 18 x ^^^ (x / 2 ^ 3)

/-- SHA-256 σ1. -/
def smallSigma1 (x : Nat) : Nat := rotr32 17 x ^^^ rotr32 19 x ^^^ (x / 2 ^ 10)

/-- A 64-bit big-endian length field. -/
def be64 (n : Nat) : List Nat :=
  [n / 2 ^ 56 % 256, n / 2 ^ 48 % 256, n / 2 ^ 40 % 256, n / 2 ^ 32 % 256,
   n / 2 ^ 24 % 256, n / 2 ^ 16 % 256, n / 2 ^ 8 % 256, n % 256]

/-- A 32-bit word as four big-endian bytes. -/
def be32 (w : Nat) : List Nat :=
  [w / 16777216 % 256, w / 65536 % 256, w / 256 % 256, w % 256]

/-- Merkle–Damgård padding shared by SHA-1 and SHA-256: `0x80`, zeros to 56
mod 64, then the bit length big-endian. -/
def shaPad (msg : List Nat) : List Nat :=
  msg ++ 128 :: List.replicate ((119 - msg.length % 64) % 64) 0 ++ be64 (8 * msg.length)

/-- Big-endian 32-bit words of a byte sequence. -/
def toWords : List Nat → List Nat
  | a :: b :: c :: d :: rest => (a * 16777216 + b * 65536 + c * 256 + d) :: toWords rest
  | _ => []

/-- 16-word blocks (padding makes the word count a multiple of 16, so the
catch-all for a short trailing fragment is never reached on padded input). -/
def chunk16 : List Nat → List (List Nat)
  | w0 :: w1 :: w2 :: w3 :: w4 :: w5 :: w6 :: w7
      :: w8 :: w9 :: w10 :: w11 :: w12 :: w13 :: w14 :: w15 :: rest =>
      [w0, w1, w2, w3, w4, w5, w6, w7, w8, w9, w10, w11, w12, w13, w14, w15] :: chunk16 rest
  | _ => []

/-- One step of the SHA-256 message-schedule extension. -/
def sha256ExtendStep (ws : List Nat) : List Nat :=
  let t := ws.length
  ws ++ [w32 (smallSigma1 (ws.getD (t - 2) 0) + ws.getD (t - 7) 0
    + smallSigma0 (ws.getD (t - 15) 0) + ws.getD (t - 16) 0)]

/-- Iterated schedule extension (48 steps take 16 words to 64). -/
def sha256Extend : Nat → List Nat → List Nat
  | 0, ws => ws
  | n + 1, ws => sha256Extend n (sha256ExtendStep ws)

/-- The SHA-256 round constants. -/
def sha256K : List Nat :=
  [1116352408, 1899447441, 3049323471, 3921009573, 961987163, 1508970993, 2453635748,
   2870763221, 3624381080, 310598401, 607225278, 1426881987, 1925078388, 2162078206,
   2614888103, 3248222580, 3835390401, 4022224774, 264347078, 604807628, 770255983,
   1249150122, 1555081692, 1996064986, 2554220882, 2821834349, 2952996808, 3210313671,
   3336571891, 3584528711, 113926993, 338241895, 666307205, 773529912, 1294757372,
   1396182291, 1695183700, 1986661051, 2177026350, 2456956037, 2730485921, 2820302411,
   3259730800, 3345764771, 3516065817, 3600352804, 4094571909, 275423344, 430227734,
   506948616, 659060556, 883997877, 958139571, 1322822218, 1537002063, 1747873779,
   1955562222, 2024104815, 2227730452, 2361852424, 2428436474, 2756734187, 3204031479,
   3329325298]

/-- The SHA-256 initial state. -/
def sha256H0 : List Nat :=
  [1779033703, 3144134277, 1013904242, 2773480762, 1359893119, 2600822924, 528734635,
   1541459225]

/-- One SHA-256 round on the 8-word state (constant and schedule word
paired). -/
def sha256Round (st : List Nat) (kw : Nat × Nat) : List Nat :=
  match st with
  | [a, b, c, d, e, f, g, h] =>
    let t1 := w32 (h + bigSigma1 e + ch32 e f g + kw.1 + kw.2)
    let t2 := w32 (bigSigma0 a + maj32 a b c)
    [w32 (t1 + t2), a, b, c, w32 (d + t1), e, f, g]
  | st => st

/-- SHA-256 compression of one 16-word block. -/
def sha256Compress (h0 : List Nat) (block : List Nat) : List Nat :=
  let ws := sha256Extend 48 block
  let st := (sha256K.zip ws).foldl sha256Round h0
  (h0.zip st).map (fun p => w32 (p.1 + p.2))

/-- SHA-256 digest bytes of a byte message. -/
def sha256Bytes (msg : List Nat) : List Nat :=
  (((chunk16 (toWords (shaPad msg))).foldl sha256Compress sha256H0).map be32).flatten

/-- The SHA-1 initial state. -/
def sha1H0 : List Nat := [1732584193, 4023233417, 2562383102, 271733878, 3285377520]

/-- One step of the SHA-1 message-schedule extension. -/
def sha1ExtendStep (ws : List Nat) : List Nat :=
  let t := ws.length
  ws ++ [rotl32 1 (ws.getD (t - 3) 0 ^^^ ws.getD (t - 8) 0 ^^^ ws.getD (t - 14) 0
    ^^^ ws.getD (t - 16) 0)]

/-- Iterated SHA-1 schedule extension (64 steps take 16 words to 80). -/
def sha1Extend : Nat → List Nat → List Nat
  | 0, ws => ws
  | n + 1, ws => sha1Extend n (sha1ExtendStep ws)

/-- The SHA-1 round function. -/
def sha1F (t b c d : Nat) : Nat :=
  if t < 20 then (b &&& c) ||| (not32 b &&& d)
  else if t < 40 then b ^^^ c ^^^ d
  else if t < 60 then (b &&& c) ||| (b &&& d) ||| (c &&& d)
  else b ^^^ c ^^^ d

/-- The SHA-1 round constants. -/
def sha1K (t : Nat) : Nat :=
  if t < 20 then 1518500249
  else if t < 40 then 1859775393
  else if t < 60 then 2400959708
  else 3395469782

/-- One SHA-1 round on the 5-word state (round index and schedule word
paired). -/
def sha1Round (st : List Nat) (tw : Nat × Nat) : List Nat :=
  match st with
  | [a, b, c, d, e] =>
    [w32 (rotl32 5 a + sha1F tw.1 b c d + e + sha1K tw.1 + tw.2), a, rotl32 30 b, c, d]
  | st => st

/-- SHA-1 compression of one 16-word block. -/
def sha1Compress (h0 : List Nat) (block : List Nat) : List Nat :=
  let ws := sha1Extend 64 block
  let st := ((List.range 80).zip ws).foldl sha1Round h0
  (h0.zip st).map (fun p => w32 (p.1 + p.2))

/-- SHA-1 digest bytes of a byte message. -/
def sha1Bytes (msg : List Nat) : List Nat :=
  (((chunk16 (toWords (shaPad msg))).foldl sha1Compress sha1H0).map be32).flatten

/-- Slice `chars` into the 8-4-4-4-12 groups of a UUID-like token, joined
with hyphens. -/
def uuidGroups (chars : List Char) : String :=
  String.mk (chars.take 8 ++ '-' :: ((chars.drop 8).take 4) ++ '-' :: ((chars.drop 12).take 4)
    ++ '-' :: ((chars.drop 16).take 4) ++ '-' :: (chars.drop 20).take 12)

/-- `deriveIntentId` of `nodes/Kora/transport/koraClient.ts` (lines 85–95):
SHA-256 of `kora:executionId:itemIndex:operation`, hex digest sliced
8-4-4-4-12 and joined with hyphens. -/
def Transport.deriveIntentId (executionId : String) (itemIndex : Nat)
    (operation : String) : String :=
  let input := "kora:" ++ executionId ++ ":" ++ toString itemIndex ++ ":" ++ operation
  uuidGroups (hexLower (sha256Bytes (utf8Encode input.toList)))

/-- Map with the element index (`Array.from(bytes).map((b, i) => ...)`
style indexed traversal). -/
def mapWithIdx (f : Nat → Nat → Nat) : Nat → List Nat → List Nat
  | _, [] => []
  | i, b :: bs => f i b :: mapWithIdx f (i + 1) bs

/-- `uuid.parse`: the 16 bytes of a UUID string (hex pairs, hyphens
skipped). -/
def uuidParse (s : String) : List Nat :=
  nodeHexDecode (s.toList.filter (fun c => c != '-'))

/-- The stable namespace constant of `src/shared/koraClient.ts` (line 23). -/
def KORA_N8N_NAMESPACE : String := "b7e23ec2-9c4f-4a1d-8e6b-f3a5d7c9e1b0"

/-- `uuid.v5`: SHA-1 over namespace bytes followed by the UTF-8 name, first
16 digest bytes with the version nibble forced to 5 and the variant bits to
10, rendered 8-4-4-4-12. -/
def uuidv5 (name : String) (namespaceStr : String) : String :=
  let digest := (sha1Bytes (uuidParse namespaceStr ++ utf8Encode name.toList)).take 16
  uuidGroups (hexLower (mapWithIdx (fun i b =>
    if i = 6 then (b &&& 15) ||| 80
    else if i = 8 then (b &&& 63) ||| 128
    else b) 0 digest))

/-- `deriveIntentId` of `src/shared/koraClient.ts` (lines 30–37): UUIDv5 of
`executionId:itemIndex:operation` under the Kora n8n namespace. -/
def Shared.deriveIntentId (executionId : String) (itemIndex : Nat)
    (operation : String) : String :=
  uuidv5 (executionId ++ ":" ++ toString itemIndex ++ ":" ++ operation) KORA_N8N_NAMESPACE

/- ===================================================================
   Theorems
   =================================================================== -/

/- ===================================================================
   Helper lemmas
   =================================================================== -/

/-- The authorize phase never produces the Insufficient outcome: only the
budget pre-check emits on that channel. -/
theorem authorizePhase_ne_insufficient (r : FetchOutcome) (x y : Int) :
    authorizePhase r ≠ .insufficient x y := by
  unfold authorizePhase
  cases authorizeSpend r with
  | error e => simp
  | ok body =>
    simp only [routeDecision]
    split <;> simp

/-- With `continueOnFail` disabled, the `Kora` node's catch block never takes
the continue branch: every error is thrown. -/
theorem koraCatch_false_not_continued (e : KoraNodeError) (m : String) :
    koraCatch false e ≠ .continuedAsDenied m := by
  unfold koraCatch
  simp only [Bool.false_eq_true, if_false]
  repeat' split
  all_goals simp

/-- With `continueOnFail` disabled, a thrown error is always fatal for the
`Kora` node: the result is exactly the thrown disposition of the catch
block. -/
theorem koraSpendItem_false_threw (e : KoraNodeError) :
    koraSpendItem false (.threw e) = .fatal (koraCatch false e) := by
  show (match koraCatch false e with
        | KoraCatch.continuedAsDenied m => KoraSpendResult.deniedErrorItem m
        | c => KoraSpendResult.fatal c) = KoraSpendResult.fatal (koraCatch false e)
  cases h : koraCatch false e
  case continuedAsDenied m => exact absurd h (koraCatch_false_not_continued e m)
  all_goals rfl

/- ===================================================================
   C4: 5xx and transport failures are fail-closed
   =================================================================== -/

/-- C4: every authorize attempt whose transport result has status ≥ 500
(in particular 500/502/503) is classified as a thrown fatal Unavailable
(server) error; every transport-level failure is likewise a thrown fatal
error, and connection-refused / timeout codes specifically yield the
fail-closed network-unavailable throw. No such result is an Approved outcome
or a silently skipped item: the equations pin the outcome to `.fatal`. -/
theorem unavailable_class_fail_closed :
    (∀ (status : Nat) (body : AuthBody), 500 ≤ status →
      authorizePhase (.response status body) = .fatal (.unavailableServer (some status)))
    ∧ (∀ code causeCode, ∃ t, authorizePhase (.failure code causeCode) = .fatal t)
    ∧ (∀ causeCode,
        authorizePhase (.failure (some "ECONNREFUSED") causeCode) = .fatal .unavailableNetwork
        ∧ authorizePhase (.failure (some "ETIMEDOUT") causeCode) = .fatal .unavailableNetwork)
    ∧ (∀ code, authorizePhase (.failure code (some "ECONNREFUSED")) = .fatal .unavailableNetwork) := by
  refine ⟨?_, ?_, ?_, ?_⟩
  · intro status body h
    simp [authorizePhase, authorizeSpend, h, handleKoraError, optGe500]
  · intro code causeCode
    exact ⟨_, rfl⟩
  · intro causeCode
    constructor <;> simp [authorizePhase, authorizeSpend, handleKoraError, optGe500]
  · intro code
    simp [authorizePhase, authorizeSpend, handleKoraError, optGe500]

/-- Witness for C4 at concrete inputs: HTTP 503 and a refused connection. -/
theorem unavailable_class_fail_closed_witness :
    authorizePhase (.response 503 weirdBody) = .fatal (.unavailableServer (some 503))
    ∧ authorizePhase (.failure (some "ECONNREFUSED") none) = .fatal .unavailableNetwork :=
  ⟨unavailable_class_fail_closed.1 503 weirdBody (by decide),
   (unavailable_class_fail_closed.2.2.1 none).1⟩

/- ===================================================================
   C1: continueOnFail versus Unavailable-class errors (Kora node)
   =================================================================== -/

/-- C1 counterexample: with the continue-on-failure override enabled, an
HTTP-503 (Unavailable-class) error raised while processing an item is
converted into an item `{ error: ... }` on the Denied output channel and the
loop continues — the claim that no execution path converts such an error
into an output item is false. -/
theorem continueOnFail_suppresses_unavailable :
    koraSpendItem true (.threw err503) = .deniedErrorItem "Service Unavailable" := by
  decide

/-- C1 amended: only when continue-on-failure is disabled does an
Unavailable-class error (HTTP status ≥ 500, or any other thrown transport
error) abort the item with a fatal throw; with continue-on-failure enabled
the error becomes an item on the Denied output channel instead. -/
theorem koraNode_unavailable_fatal_without_continueOnFail :
    (∀ e : KoraNodeError, e.isNodeOperationError = false →
      500 ≤ ((e.httpCode <|> e.responseStatus) <|> e.statusCode).getD 0 →
      koraSpendItem false (.threw e)
        = .fatal (.serverError (((e.httpCode <|> e.responseStatus) <|> e.statusCode).getD 0)))
    ∧ (∀ e : KoraNodeError, ∃ c, koraSpendItem false (.threw e) = .fatal c)
    ∧ (∀ e : KoraNodeError, koraSpendItem true (.threw e) = .deniedErrorItem e.message) := by
  refine ⟨?_, ?_, ?_⟩
  · intro e hop h
    have h400 : ((e.httpCode <|> e.responseStatus) <|> e.statusCode).getD 0 ≠ 400 := by omega
    have h401 : ((e.httpCode <|> e.responseStatus) <|> e.statusCode).getD 0 ≠ 401 := by omega
    have h403 : ((e.httpCode <|> e.responseStatus) <|> e.statusCode).getD 0 ≠ 403 := by omega
    have h404 : ((e.httpCode <|> e.responseStatus) <|> e.statusCode).getD 0 ≠ 404 := by omega
    have h429 : ((e.httpCode <|> e.responseStatus) <|> e.statusCode).getD 0 ≠ 429 := by omega
    rw [koraSpendItem_false_threw]
    simp [koraCatch, hop, h, h400, h401, h403, h404, h429]
  · intro e
    exact ⟨koraCatch false e, koraSpendItem_false_threw e⟩
  · intro e
    simp [koraSpendItem, koraCatch]

/-- Witness for the amended C1 at the concrete 503 error. -/
theorem koraNode_unavailable_fatal_witness :
    koraSpendItem false (.threw err503) = .fatal (.serverError 503) :=
  koraNode_unavailable_fatal_without_continueOnFail.1 err503 (by decide) (by decide)

/- ===================================================================
   C2: unrecognized decisions and 409 are routed to Denied, not Unavailable
   =================================================================== -/

/-- C2 counterexample: a 200 response whose decision is the unrecognized
value "MAYBE", and a 409 replay-mismatch response, are both routed to the
Denied output channel — not classified as a fail-closed fatal Unavailable. -/
theorem unrecognized_and_409_routed_to_denied :
    authorizePhase (.response 200 weirdBody)
      = .denied { decision := "DENIED", decisionId := some "dec_1",
                  reasonCode := some "UNRECOGNIZED" }
    ∧ authorizePhase (.response 409 body409)
      = .denied { decision := "DENIED", decisionId := none,
                  reasonCode := some "INTENT_REPLAY_MISMATCH" } := by
  decide

/-- C2 amended: every response with status < 500 whose
`decision ?? status` field is not "APPROVED" — including unrecognized
decision values, malformed bodies and 409 replay-mismatch responses — is
routed to the Denied output channel; only status ≥ 500 and transport
failures produce the fatal Unavailable abort. -/
theorem non5xx_nonapproved_routes_to_denied :
    (∀ (status : Nat) (body : AuthBody), status < 500 →
      (body.decision <|> body.statusField) ≠ some "APPROVED" →
      authorizePhase (.response status body)
        = .denied { decision := "DENIED",
                    decisionId := body.decisionId <|> body.authorizationId,
                    reasonCode := body.reasonCode })
    ∧ (∀ (status : Nat) (body : AuthBody), 500 ≤ status →
      authorizePhase (.response status body) = .fatal (.unavailableServer (some status))) := by
  constructor
  · intro status body h hd
    have h' : ¬ 500 ≤ status := by omega
    simp [authorizePhase, authorizeSpend, h', routeDecision, hd]
  · intro status body h
    simp [authorizePhase, authorizeSpend, h, handleKoraError, optGe500]

/-- Witness for the amended C2: an 418 response with no decision field. -/
theorem non5xx_nonapproved_denied_witness :
    authorizePhase (.response 418 body409)
      = .denied { decision := "DENIED", decisionId := none,
                  reasonCode := some "INTENT_REPLAY_MISMATCH" } :=
  non5xx_nonapproved_routes_to_denied.1 418 body409 (by decide) (by decide)

/-- C5 counterexample: a suspended mandate (`status = "suspended"`) with
ample remaining budget and `spendAllowed = true` — the claim's condition
says InsufficientBudget, but the gate's pre-check does not short-circuit:
the item proceeds to the authorize call. -/
theorem gate_precheck_ignores_status :
    budgetInsufficient 0 5000 suspendedRichBudget = false
    ∧ insufficientPerClaim 0 5000 suspendedRichBudget = true
    ∧ gateItem true 0 5000 suspendedRichBudget (.response 200 weirdBody)
        ≠ .insufficient 10000 5000 := by
  decide

/-- C5 amended: with the pre-check enabled, the gate emits InsufficientBudget
exactly when `dailyRemainingCents < threshold` OR spend is not allowed —
the mandate status is not separately consulted — where threshold is the
configured minimum when it is set (> 0) and the requested amount otherwise;
remaining equal to the requested amount is sufficient and one cent less is
insufficient. -/
theorem gate_precheck_characterization :
    (∀ (minimumRaw amountCents : Int) (b : BudgetSnapshot) (r : FetchOutcome),
      gateItem true minimumRaw amountCents b r
          = .insufficient b.dailyRemainingCents (gateThreshold minimumRaw amountCents)
        ↔ (b.dailyRemainingCents < (if 0 < minimumRaw then minimumRaw else amountCents)
            ∨ b.spendAllowed = false))
    ∧ budgetInsufficient 0 5000 exactBudget = false
    ∧ budgetInsufficient 0 5000 shortBudget = true := by
  refine ⟨?_, by decide, by decide⟩
  intro minimumRaw amountCents b r
  constructor
  · intro h
    by_contra hc
    push_neg at hc
    have hins : budgetInsufficient minimumRaw amountCents b = false := by
      simp [budgetInsufficient, gateThreshold]
      constructor
      · simpa [gateThreshold] using hc.1
      · simpa using hc.2
    rw [gateItem] at h
    simp [hins] at h
    exact authorizePhase_ne_insufficient r _ _ h
  · intro h
    have hins : budgetInsufficient minimumRaw amountCents b = true := by
      simp [budgetInsufficient, gateThreshold]
      rcases h with h | h
      · left; simpa [gateThreshold] using h
      · right; simp [h]
    simp [gateItem, hins]

/-- Witness for the amended C5: one cent short → Insufficient. -/
theorem gate_precheck_characterization_witness :
    gateItem true 0 5000 shortBudget (.failure none none) = .insufficient 4999 5000 :=
  (gate_precheck_characterization.1 0 5000 shortBudget (.failure none none)).mpr
    (Or.inl (by decide))

/- ===================================================================
   C6: the short-circuit makes no authorize call
   =================================================================== -/

/-- C6: for every item the budget pre-check short-circuits, the item's trace
is exactly budget-query followed by the Insufficient emission: the authorize
call — and with it the building, signing and sending of the signed request —
never happens. -/
theorem insufficient_short_circuit_no_authorize :
    ∀ (minimumRaw amountCents : Int) (b : BudgetSnapshot) (r : FetchOutcome),
      budgetInsufficient minimumRaw amountCents b = true →
      gateItemTrace true minimumRaw amountCents b r = [.budgetQuery, .emitInsufficient]
      ∧ Action.authorizeCall ∉ gateItemTrace true minimumRaw amountCents b r := by
  intro minimumRaw amountCents b r h
  refine ⟨by simp [gateItemTrace, h], ?_⟩
  simp [gateItemTrace, h]

/-- Witness for C6: an exhausted budget short-circuits with no authorize
call, whatever the transport would have answered. -/
theorem insufficient_short_circuit_witness :
    gateItemTrace true 0 5000 exhaustedBudget (.response 200 approvedNoSealBody)
      = [.budgetQuery, .emitInsufficient]
    ∧ Action.authorizeCall ∉
        gateItemTrace true 0 5000 exhaustedBudget (.response 200 approvedNoSealBody) :=
  insufficient_short_circuit_no_authorize 0 5000 exhaustedBudget
    (.response 200 approvedNoSealBody) (by decide)

/- ===================================================================
   C7: no seal validation on approve / deny routing
   =================================================================== -/

/-- C7 counterexample: a 200 APPROVED response with no seal artifact is
routed to the Approved channel (with `seal: null`) rather than surfaced as
an integrity error; and a 200 DENIED response carrying a seal is routed to
the Denied channel with the seal silently dropped rather than flagged. -/
theorem no_seal_validation :
    authorizePhase (.response 200 approvedNoSealBody)
      = .approved { decision := "APPROVED", decisionId := some "dec_9",
                    sealJson := none, payment := none }
    ∧ authorizePhase (.response 200 deniedWithSealBody)
      = .denied { decision := "DENIED", decisionId := some "dec_10",
                  reasonCode := some "DAILY_LIMIT_EXCEEDED" } := by
  decide

/-- C7 amended: the gate performs no seal validation. A 200 response whose
`decision ?? status` is "APPROVED" is routed to the Approved channel with
`seal := notary_seal ?? null` — `null` when the seal is absent — and any
other 200 response is routed to the Denied channel irrespective of whether
it carries a seal; neither case raises an integrity error. -/
theorem routing_ignores_seal :
    ∀ body : AuthBody,
      ((body.decision <|> body.statusField) = some "APPROVED" →
        authorizePhase (.response 200 body)
          = .approved { decision := "APPROVED",
                        decisionId := body.decisionId <|> body.authorizationId,
                        sealJson := body.notarySeal,
                        payment := body.paymentInstruction })
      ∧ ((body.decision <|> body.statusField) ≠ some "APPROVED" →
        authorizePhase (.response 200 body)
          = .denied { decision := "DENIED",
                      decisionId := body.decisionId <|> body.authorizationId,
                      reasonCode := body.reasonCode }) := by
  intro body
  constructor
  · intro h
    simp [authorizePhase, authorizeSpend, routeDecision, h]
  · intro h
    simp [authorizePhase, authorizeSpend, routeDecision, h]

/-- Witness for the amended C7: a legacy-shaped body approved via the
`status` field, seal passed through untouched. -/
theorem routing_ignores_seal_witness :
    authorizePhase (.response 200 statusApprovedBody)
      = .approved { decision := "APPROVED", decisionId := some "auth_7",
                    sealJson := some "sealed", payment := some "iban" } :=
  (routing_ignores_seal statusApprovedBody).1 (by decide)

/- ===================================================================
   C8: the encoder never fails closed
   =================================================================== -/

/-- C8 counterexample: a mapping containing `NaN` is serialized (to
`null`), not rejected with a `NonCanonicalValue` error — `canonicalize`
is `JSON.stringify ∘ sortKeys` and has no failure path at all. -/
theorem canonicalize_nan_produces_encoding :
    canonicalize [("amount_cents", J.jnan)] = "\x7b\"amount_cents\":null\x7d" := by
  decide

/-- `canonicalize` unfolded one step: the brace-wrapped comma-join of the
rendered members of the recursively key-sorted field list. -/
theorem canonicalize_eq (fields : List (String × J)) :
    canonicalize fields
      = "\x7b" ++ joinComma (stringifyFields (sortLe entryLe (sortKeysFields fields)))
          ++ "\x7d" :=
  rfl

/-- Inserting an entry whose value stringifies to `undefined` anywhere in a
field list leaves the serialized member list unchanged: `JSON.stringify`
omits such members. -/
theorem stringifyFields_insert_none (k : String) (v : J) (h : stringify v = none) :
    ∀ l : List (String × J), stringifyFields (insertLe entryLe (k, v) l) = stringifyFields l := by
  intro l
  induction l with
  | nil => simp [insertLe, stringifyFields, h]
  | cons y ys ih =>
    by_cases hle : entryLe (k, v) y = true
    · simp [insertLe, hle, stringifyFields, h]
    · obtain ⟨yk, yv⟩ := y
      simp only [insertLe, hle, if_false, Bool.false_eq_true]
      show stringifyFields ((yk, yv) :: insertLe entryLe (k, v) ys) = stringifyFields ((yk, yv) :: ys)
      cases hv : stringify yv with
      | none => simpa [stringifyFields, hv] using ih
      | some sv => simpa [stringifyFields, hv] using ih

/-- C8 amended: the canonical encoder never fails: there is no
`NonCanonicalValue` error path. A `NaN` value is serialized as `null`, and a
mapping key holding `undefined` is omitted from the encoding (the encoding
of the remaining fields is returned unchanged). -/
theorem canonicalize_total_on_noncanonical_values :
    (∀ k : String, canonicalize [(k, J.jnan)] = "\x7b" ++ (quoteJson k ++ ":null") ++ "\x7d")
    ∧ (∀ (k : String) (fs : List (String × J)), k ∉ fs.map Prod.fst →
        canonicalize ((k, J.jundef) :: fs) = canonicalize fs) := by
  constructor
  · intro k
    rw [canonicalize_eq]
    show "\x7b" ++ (quoteJson k ++ ":" ++ "null") ++ "\x7d"
        = "\x7b" ++ (quoteJson k ++ ":null") ++ "\x7d"
    rw [String.append_assoc (quoteJson k)]
    have hlit : (":" : String) ++ "null" = ":null" := rfl
    rw [hlit]
  · intro k fs _
    rw [canonicalize_eq, canonicalize_eq]
    have hstep : sortKeysFields ((k, J.jundef) :: fs) = (k, J.jundef) :: sortKeysFields fs := rfl
    rw [hstep]
    have hins : sortLe entryLe ((k, J.jundef) :: sortKeysFields fs)
        = insertLe entryLe (k, J.jundef) (sortLe entryLe (sortKeysFields fs)) := rfl
    rw [hins, stringifyFields_insert_none k J.jundef rfl]

/-- Witness for the amended C8 at concrete inputs. -/
theorem canonicalize_total_witness :
    canonicalize [("x", J.jnan)] = "\x7b" ++ (quoteJson "x" ++ ":null") ++ "\x7d"
    ∧ canonicalize [("gone", J.jundef), ("b", J.jint 1)] = canonicalize [("b", J.jint 1)] :=
  ⟨canonicalize_total_on_noncanonical_values.1 "x",
   canonicalize_total_on_noncanonical_values.2 "gone" [("b", J.jint 1)] (by decide)⟩

/- ===================================================================
   The key order is a linear order
   =================================================================== -/

/-- `lexLe` is total. -/
theorem lexLe_total : ∀ as bs : List Nat, lexLe as bs = true ∨ lexLe bs as = true
  | [], _ => Or.inl rfl
  | _ :: _, [] => Or.inr rfl
  | a :: as, b :: bs => by
    by_cases hab : a < b
    · left; simp [lexLe, hab]
    · by_cases hba : b < a
      · right; simp [lexLe, hba]
      · have heq : a = b := by omega
        subst heq
        rcases lexLe_total as bs with h | h
        · left; simpa [lexLe] using h
        · right; simpa [lexLe] using h

/-- `lexLe` is antisymmetric. -/
theorem lexLe_antisymm : ∀ as bs : List Nat,
    lexLe as bs = true → lexLe bs as = true → as = bs
  | [], [], _, _ => rfl
  | [], _ :: _, _, h2 => by simp [lexLe] at h2
  | _ :: _, [], h1, _ => by simp [lexLe] at h1
  | a :: as, b :: bs, h1, h2 => by
    by_cases hab : a < b
    · have : ¬ b < a := by omega
      simp [lexLe, hab, this] at h2
    · by_cases hba : b < a
      · simp [lexLe, hab, hba] at h1
      · have heq : a = b := by omega
        subst heq
        simp only [lexLe, lt_irrefl, if_false] at h1 h2
        rw [lexLe_antisymm as bs (by simpa using h1) (by simpa using h2)]

/-- `lexLe` is transitive. -/
theorem lexLe_trans : ∀ as bs cs : List Nat,
    lexLe as bs = true → lexLe bs cs = true → lexLe as cs = true
  | [], _, _, _, _ => rfl
  | _ :: _, [], _, h1, _ => by simp [lexLe] at h1
  | _ :: _, _ :: _, [], _, h2 => by simp [lexLe] at h2
  | a :: as, b :: bs, c :: cs, h1, h2 => by
    by_cases hab : a < b
    · by_cases hbc : b < c
      · simp [lexLe, show a < c by omega]
      · have hcb : ¬ c < b := by
          intro hcb
          simp [lexLe, hbc, hcb] at h2
        have : a < c := by omega
        simp [lexLe, this]
    · by_cases hba : b < a
      · simp [lexLe, hab, hba] at h1
      · have heq : a = b := by omega
        subst heq
        by_cases hbc : a < c
        · simp [lexLe, hbc]
        · have hcb : ¬ c < a := by
            intro hcb
            simp [lexLe, hbc, hcb] at h2
          have heq2 : a = c := by omega
          subst heq2
          simp only [lexLe, lt_irrefl, if_false] at h1 h2 ⊢
          exact lexLe_trans as bs cs (by simpa using h1) (by simpa using h2)

/-- `Char.toNat` is injective. -/
theorem char_toNat_inj {a b : Char} (h : a.toNat = b.toNat) : a = b :=
  Char.ext (UInt32.ext h)

/-- The scalar-value bounds of a `Char`: below the surrogate range or above
it and below 0x110000. -/
theorem char_toNat_valid (c : Char) :
    c.toNat < 55296 ∨ (57343 < c.toNat ∧ c.toNat < 1114112) := c.valid

/-- A character encodes to at least one code unit. -/
theorem charUtf16_ne_nil (c : Char) : charUtf16 c ≠ [] := by
  unfold charUtf16
  split <;> simp

/-- UTF-16 encoding of a character sequence is injective: the first code
unit tells whether the first character is one unit (outside the surrogate
range) or a surrogate pair (high surrogate), so the encoding is
self-delimiting. -/
theorem charUtf16_flatten_inj : ∀ l m : List Char,
    (l.map charUtf16).flatten = (m.map charUtf16).flatten → l = m
  | [], [], _ => rfl
  | [], c :: m, h => by
    simp only [List.map_nil, List.flatten_nil, List.map_cons, List.flatten_cons] at h
    rw [eq_comm, List.append_eq_nil] at h
    exact absurd h.1 (charUtf16_ne_nil c)
  | c :: l, [], h => by
    simp only [List.map_nil, List.flatten_nil, List.map_cons, List.flatten_cons] at h
    rw [List.append_eq_nil] at h
    exact absurd h.1 (charUtf16_ne_nil c)
  | a :: l, b :: m, h => by
    simp only [List.map_cons, List.flatten_cons] at h
    have hva := char_toNat_valid a
    have hvb := char_toNat_valid b
    by_cases ha : a.toNat < 65536 <;> by_cases hb : b.toNat < 65536
    · rw [charUtf16, charUtf16, if_pos ha, if_pos hb] at h
      simp only [List.cons_append, List.nil_append, List.cons.injEq] at h
      obtain ⟨h1, h2⟩ := h
      exact congrArg₂ List.cons (char_toNat_inj h1) (charUtf16_flatten_inj l m h2)
    · rw [charUtf16, charUtf16, if_pos ha, if_neg hb] at h
      simp only [List.cons_append, List.nil_append, List.cons.injEq] at h
      exact absurd h.1 (by omega)
    · rw [charUtf16, charUtf16, if_neg ha, if_pos hb] at h
      simp only [List.cons_append, List.nil_append, List.cons.injEq] at h
      exact absurd h.1 (by omega)
    · rw [charUtf16, charUtf16, if_neg ha, if_neg hb] at h
      simp only [List.cons_append, List.nil_append, List.cons.injEq] at h
      obtain ⟨h1, h2, h3⟩ := h
      refine congrArg₂ List.cons (char_toNat_inj ?_) (charUtf16_flatten_inj l m h3)
      omega

/-- `keyLe` is total. -/
theorem keyLe_total (a b : String) : keyLe a b = true ∨ keyLe b a = true :=
  lexLe_total _ _

/-- `keyLe` is transitive. -/
theorem keyLe_trans {a b c : String} (h1 : keyLe a b = true) (h2 : keyLe b c = true) :
    keyLe a c = true :=
  lexLe_trans _ _ _ h1 h2

/-- `keyLe` is antisymmetric. -/
theorem keyLe_antisymm {a b : String} (h1 : keyLe a b = true) (h2 : keyLe b a = true) :
    a = b := by
  have hu := lexLe_antisymm _ _ h1 h2
  have hl : a.toList = b.toList := charUtf16_flatten_inj _ _ hu
  cases a; cases b
  simp only [String.toList] at hl
  exact congrArg String.mk hl

/- ===================================================================
   Insertion sort: permutation and sortedness
   =================================================================== -/

/-- Inserting is a permutation away from consing. -/
theorem insertLe_perm (le : α → α → Bool) (x : α) :
    ∀ l : List α, List.Perm (insertLe le x l) (x :: l) := by
  intro l
  induction l with
  | nil => exact List.Perm.refl _
  | cons y ys ih =>
    by_cases h : le x y = true
    · simp [insertLe, h]
    · simp only [insertLe, h, if_false, Bool.false_eq_true]
      exact ((ih.cons y).trans (List.Perm.swap x y ys))

/-- Sorting is a permutation. -/
theorem sortLe_perm (le : α → α → Bool) :
    ∀ l : List α, List.Perm (sortLe le l) l := by
  intro l
  induction l with
  | nil => exact List.Perm.refl _
  | cons x xs ih =>
    exact (insertLe_perm le x (sortLe le xs)).trans (ih.cons x)

/-- Inserting into a sorted list keeps it sorted, given a total transitive
comparator. -/
theorem insertLe_pairwise (le : α → α → Bool)
    (htot : ∀ a b, le a b = true ∨ le b a = true)
    (htrans : ∀ a b c, le a b = true → le b c = true → le a c = true) (x : α) :
    ∀ l : List α, l.Pairwise (fun a b => le a b = true) →
      (insertLe le x l).Pairwise (fun a b => le a b = true) := by
  intro l
  induction l with
  | nil => intro _; simp [insertLe]
  | cons y ys ih =>
    intro h
    rw [List.pairwise_cons] at h
    by_cases hxy : le x y = true
    · simp only [insertLe, hxy, if_true]
      rw [List.pairwise_cons]
      refine ⟨?_, List.pairwise_cons.mpr h⟩
      intro z hz
      rcases List.mem_cons.mp hz with hz2 | hz2
      · rw [hz2]
        exact hxy
      · exact htrans x y z hxy (h.1 z hz2)
    · simp only [insertLe, hxy, if_false, Bool.false_eq_true]
      rw [List.pairwise_cons]
      constructor
      · intro z hz
        have hz' : z ∈ x :: ys := (insertLe_perm le x ys).mem_iff.mp hz
        rcases List.mem_cons.mp hz' with hz2 | hz2
        · rw [hz2]
          rcases htot x y with h' | h'
          · exact absurd h' hxy
          · exact h'
        · exact h.1 z hz2
      · exact ih h.2

/-- Insertion sort sorts, given a total transitive comparator. -/
theorem sortLe_pairwise (le : α → α → Bool)
    (htot : ∀ a b, le a b = true ∨ le b a = true)
    (htrans : ∀ a b c, le a b = true → le b c = true → le a c = true) :
    ∀ l : List α, (sortLe le l).Pairwise (fun a b => le a b = true) := by
  intro l
  induction l with
  | nil => simp [sortLe]
  | cons x xs ih => exact insertLe_pairwise le htot htrans x _ ih

/-- `entryLe` is total. -/
theorem entryLe_total (p q : String × J) : entryLe p q = true ∨ entryLe q p = true :=
  keyLe_total p.1 q.1

/-- `entryLe` is transitive. -/
theorem entryLe_trans (p q r : String × J)
    (h1 : entryLe p q = true) (h2 : entryLe q r = true) : entryLe p r = true :=
  keyLe_trans h1 h2

/-- Two entry lists that are permutations of one another, both sorted by
key, with duplicate-free keys, are equal. -/
theorem sorted_nodupkeys_eq : ∀ l₁ l₂ : List (String × J),
    List.Perm l₁ l₂ →
    l₁.Pairwise (fun p q => entryLe p q = true) →
    l₂.Pairwise (fun p q => entryLe p q = true) →
    (l₁.map Prod.fst).Nodup →
    l₁ = l₂
  | [], l₂, hp, _, _, _ => (hp.symm.eq_nil).symm
  | x :: t₁, l₂, hp, hs₁, hs₂, hnd => by
    cases l₂ with
    | nil => exact absurd hp.symm (by simp)
    | cons y t₂ =>
      have hxy : x = y := by
        by_contra hne
        have hx2 : x ∈ y :: t₂ := hp.mem_iff.mp (List.mem_cons_self x t₁)
        have hy1 : y ∈ x :: t₁ := hp.symm.mem_iff.mp (List.mem_cons_self y t₂)
        have hxt₂ : x ∈ t₂ := by
          rcases List.mem_cons.mp hx2 with h | h
          · exact absurd h hne
          · exact h
        have hyt₁ : y ∈ t₁ := by
          rcases List.mem_cons.mp hy1 with h | h
          · exact absurd h.symm hne
          · exact h
        have hle1 : entryLe x y = true := (List.pairwise_cons.mp hs₁).1 y hyt₁
        have hle2 : entryLe y x = true := (List.pairwise_cons.mp hs₂).1 x hxt₂
        have hkeq : x.1 = y.1 := keyLe_antisymm hle1 hle2
        have : x.1 ∉ t₁.map Prod.fst := (List.nodup_cons.mp (by simpa using hnd)).1
        exact this (hkeq ▸ List.mem_map_of_mem Prod.fst hyt₁)
      subst hxy
      have hpt : List.Perm t₁ t₂ := (List.perm_cons x).mp hp
      have := sorted_nodupkeys_eq t₁ t₂ hpt
        (List.pairwise_cons.mp hs₁).2 (List.pairwise_cons.mp hs₂).2
        (List.nodup_cons.mp (by simpa using hnd)).2
      rw [this]

/-- A key is absent exactly when its lookup is `none`. -/
theorem lookupJ_eq_none (k : String) : ∀ l : List (String × J),
    lookupJ k l = none ↔ k ∉ l.map Prod.fst := by
  intro l
  induction l with
  | nil => simp [lookupJ]
  | cons p fs ih =>
    obtain ⟨k', v⟩ := p
    by_cases h : k' = k
    · subst h
      simp [lookupJ]
    · simp [lookupJ, h, ih, Ne.symm h]

/-- A successful lookup is a membership. -/
theorem lookupJ_some_mem {k : String} {v : J} : ∀ l : List (String × J),
    lookupJ k l = some v → (k, v) ∈ l := by
  intro l
  induction l with
  | nil => simp [lookupJ]
  | cons p fs ih =>
    obtain ⟨k', w⟩ := p
    by_cases h : k' = k
    · subst h
      simp only [lookupJ, if_true, Option.some.injEq, List.mem_cons]
      intro hv
      exact Or.inl (by rw [hv])
    · simp only [lookupJ, h, if_false, List.mem_cons]
      intro hv
      exact Or.inr (ih hv)

/-- Removing a differently-keyed entry from the middle does not change a
lookup. -/
theorem lookupJ_append_cons_ne {k k' : String} (hne : k' ≠ k) (v : J) :
    ∀ (u w : List (String × J)),
      lookupJ k (u ++ (k', v) :: w) = lookupJ k (u ++ w) := by
  intro u w
  induction u with
  | nil => simp [lookupJ, hne]
  | cons p us ih =>
    obtain ⟨k₁, v₁⟩ := p
    by_cases h : k₁ = k
    · simp [lookupJ, h]
    · simp [lookupJ, h, ih]

/-- Entry lists with duplicate-free keys and identical lookups are
permutations of one another. -/
theorem perm_of_lookupJ_eq : ∀ l₁ l₂ : List (String × J),
    (l₁.map Prod.fst).Nodup → (l₂.map Prod.fst).Nodup →
    (∀ k, lookupJ k l₁ = lookupJ k l₂) →
    List.Perm l₁ l₂
  | [], l₂, _, _, hk => by
    cases l₂ with
    | nil => exact List.Perm.refl _
    | cons p t =>
      obtain ⟨k, v⟩ := p
      have := hk k
      simp [lookupJ] at this
  | (k, v) :: t₁, l₂, hnd₁, hnd₂, hk => by
    have hv : lookupJ k l₂ = some v := by
      rw [← hk k]
      simp [lookupJ]
    obtain ⟨u, w, rfl⟩ := List.append_of_mem (lookupJ_some_mem l₂ hv)
    have hknotu : k ∉ u.map Prod.fst ∧ k ∉ w.map Prod.fst := by
      have : (u.map Prod.fst ++ k :: w.map Prod.fst).Nodup := by
        simpa using hnd₂
      rw [List.nodup_append] at this
      refine ⟨?_, (List.nodup_cons.mp this.2.1).1⟩
      intro hmem
      exact this.2.2 hmem (List.mem_cons_self k _)
    have hndw : ((u ++ w).map Prod.fst).Nodup := by
      have hsub : List.Sublist (u ++ w) (u ++ (k, v) :: w) :=
        (List.sublist_cons_self (k, v) w).append_left u
      exact hnd₂.sublist (hsub.map Prod.fst)
    have hkt : ∀ k', lookupJ k' t₁ = lookupJ k' (u ++ w) := by
      intro k'
      by_cases hkk : k' = k
      · subst hkk
        have h1 : lookupJ k' t₁ = none := by
          rw [lookupJ_eq_none]
          exact (List.nodup_cons.mp (by simpa using hnd₁)).1
        have h2 : lookupJ k' (u ++ w) = none := by
          rw [lookupJ_eq_none, List.map_append, List.mem_append]
          rintro (h | h)
          · exact hknotu.1 h
          · exact hknotu.2 h
        rw [h1, h2]
      · have h1 : lookupJ k' ((k, v) :: t₁) = lookupJ k' t₁ := by
          simp [lookupJ, hkk, show k ≠ k' from fun h => hkk h.symm]
        rw [← h1, hk k', lookupJ_append_cons_ne (fun h => hkk h.symm) v u w]
    have hperm : List.Perm t₁ (u ++ w) :=
      perm_of_lookupJ_eq t₁ (u ++ w)
        (List.nodup_cons.mp (by simpa using hnd₁)).2 hndw hkt
    exact (hperm.cons (k, v)).trans List.perm_middle.symm

/- ===================================================================
   C10: canonicalize is insertion-order independent
   =================================================================== -/

/-- `sortKeysArr` is `map sortKeys`. -/
theorem sortKeysArr_eq_map : ∀ xs : List J, sortKeysArr xs = xs.map sortKeys
  | [] => rfl
  | x :: xs => by rw [sortKeysArr, sortKeysArr_eq_map xs, List.map_cons]

/-- `sortKeysFields` leaves keys (and their order) untouched. -/
theorem map_fst_sortKeysFields : ∀ l : List (String × J),
    (sortKeysFields l).map Prod.fst = l.map Prod.fst
  | [] => rfl
  | (k, v) :: fs => by
    rw [sortKeysFields, List.map_cons, List.map_cons, map_fst_sortKeysFields fs]

/-- `sortKeysFields` transforms lookups pointwise by `sortKeys`. -/
theorem lookupJ_sortKeysFields (k : String) : ∀ l : List (String × J),
    lookupJ k (sortKeysFields l) = (lookupJ k l).map sortKeys
  | [] => rfl
  | (k', v) :: fs => by
    by_cases h : k' = k
    · rw [sortKeysFields, lookupJ, lookupJ, if_pos h, if_pos h, Option.map_some']
    · rw [sortKeysFields, lookupJ, lookupJ, if_neg h, if_neg h,
        lookupJ_sortKeysFields k fs]

/-- Values with the same contents key-sort to the same value: the heart of
order independence. -/
theorem sortKeys_eq_of_equiv {a b : J} (h : EquivJ a b) : sortKeys a = sortKeys b := by
  induction h with
  | refl x => rfl
  | arr xs ys hlen h ih =>
    show J.jarr (sortKeysArr xs) = J.jarr (sortKeysArr ys)
    rw [sortKeysArr_eq_map, sortKeysArr_eq_map]
    refine congrArg J.jarr (List.ext_get (by simp [hlen]) ?_)
    intro i h1 h2
    simp only [List.get_eq_getElem, List.getElem_map]
    exact ih i _ _
  | obj fs gs hf hg hnone hnone' hvals ih =>
    show J.jobj (sortLe entryLe (sortKeysFields fs))
        = J.jobj (sortLe entryLe (sortKeysFields gs))
    refine congrArg J.jobj ?_
    have hndf : ((sortKeysFields fs).map Prod.fst).Nodup := by
      rw [map_fst_sortKeysFields]; exact hf
    have hndg : ((sortKeysFields gs).map Prod.fst).Nodup := by
      rw [map_fst_sortKeysFields]; exact hg
    have hlook : ∀ k, lookupJ k (sortKeysFields fs) = lookupJ k (sortKeysFields gs) := by
      intro k
      rw [lookupJ_sortKeysFields, lookupJ_sortKeysFields]
      cases hfk : lookupJ k fs with
      | none => rw [hnone k hfk]
      | some v =>
        cases hgk : lookupJ k gs with
        | none => exact absurd hfk (by rw [hnone' k hgk]; simp)
        | some w => rw [Option.map_some', Option.map_some', ih k v w hfk hgk]
    have hperm : List.Perm (sortKeysFields fs) (sortKeysFields gs) :=
      perm_of_lookupJ_eq _ _ hndf hndg hlook
    refine sorted_nodupkeys_eq _ _ ?_ ?_ ?_ ?_
    · exact ((sortLe_perm entryLe _).trans hperm).trans (sortLe_perm entryLe _).symm
    · exact sortLe_pairwise entryLe entryLe_total entryLe_trans _
    · exact sortLe_pairwise entryLe entryLe_total entryLe_trans _
    · exact (((sortLe_perm entryLe _).map Prod.fst).nodup_iff).mpr hndf

/-- C10: `canonicalize` is deterministic and insertion-order independent:
two mappings with the same key-value contents (mapping entries permuted
arbitrarily at every nesting level, array element order preserved) encode to
byte-identical output. Determinism across repeated encodings is definitional
(`canonicalize` is a pure function); key sorting at every nesting level and
the absence of inserted whitespace are visible in `sortKeys`/`stringify`. -/
theorem canonicalize_order_independent (fs gs : List (String × J))
    (h : EquivJ (.jobj fs) (.jobj gs)) : canonicalize fs = canonicalize gs := by
  unfold canonicalize
  rw [sortKeys_eq_of_equiv h]

/-- Two-entry objects with swapped entry order and equivalent values have the
same contents. -/
theorem equivJ_obj₂ (k₁ k₂ : String) (v₁ v₂ w₁ w₂ : J) (hne : k₁ ≠ k₂)
    (h₁ : EquivJ v₁ w₁) (h₂ : EquivJ v₂ w₂) :
    EquivJ (.jobj [(k₁, v₁), (k₂, v₂)]) (.jobj [(k₂, w₂), (k₁, w₁)]) := by
  refine EquivJ.obj _ _ ?_ ?_ ?_ ?_ ?_
  · simp [hne]
  · simp [Ne.symm hne]
  · intro k h
    by_cases e1 : k₁ = k
    · subst e1
      simp [lookupJ] at h
    · by_cases e2 : k₂ = k
      · subst e2
        simp [lookupJ, e1] at h
      · simp [lookupJ, e1, e2]
  · intro k h
    by_cases e2 : k₂ = k
    · subst e2
      simp [lookupJ] at h
    · by_cases e1 : k₁ = k
      · subst e1
        simp [lookupJ, e2] at h
      · simp [lookupJ, e1, e2]
  · intro k v w hv hw
    by_cases e1 : k₁ = k
    · subst e1
      rw [lookupJ, if_pos rfl] at hv
      rw [lookupJ, if_neg (Ne.symm hne), lookupJ, if_pos rfl] at hw
      rw [← Option.some.injEq] at hv hw
      cases hv
      cases hw
      exact h₁
    · by_cases e2 : k₂ = k
      · subst e2
        rw [lookupJ, if_neg e1, lookupJ, if_pos rfl] at hv
        rw [lookupJ, if_pos rfl] at hw
        cases hv
        cases hw
        exact h₂
      · rw [lookupJ, if_neg e1, lookupJ, if_neg e2] at hv
        exact absurd hv (by simp [lookupJ])

/- ===================================================================
   C3: the two derivations are deterministic but different functions
   =================================================================== -/

/-- Two hex digits per byte. -/
theorem hexLower_length : ∀ bytes : List Nat, (hexLower bytes).length = 2 * bytes.length
  | [] => rfl
  | b :: bs => by
    rw [hexLower, List.length_cons, List.length_cons, hexLower_length bs, List.length_cons]
    omega

/-- Four bytes per word. -/
theorem map_be32_flatten_length : ∀ ws : List Nat,
    ((ws.map be32).flatten).length = 4 * ws.length
  | [] => rfl
  | w :: ws => by
    rw [List.map_cons, List.flatten_cons, List.length_append, map_be32_flatten_length ws,
      List.length_cons]
    rw [show (be32 w).length = 4 from rfl]
    omega

/-- A SHA-256 round preserves the state length. -/
theorem sha256Round_length (st : List Nat) (kw : Nat × Nat) :
    (sha256Round st kw).length = st.length := by
  unfold sha256Round
  split
  · simp_all
  · rfl

/-- The SHA-256 round fold preserves the state length. -/
theorem foldl_sha256Round_length : ∀ (pairs : List (Nat × Nat)) (st : List Nat),
    (pairs.foldl sha256Round st).length = st.length
  | [], _ => rfl
  | p :: ps, st => by
    rw [List.foldl_cons, foldl_sha256Round_length ps, sha256Round_length]

/-- SHA-256 compression returns an 8-word state. -/
theorem sha256Compress_length (h0 block : List Nat) (h : h0.length = 8) :
    (sha256Compress h0 block).length = 8 := by
  unfold sha256Compress
  rw [List.length_map, List.length_zip, foldl_sha256Round_length, h]
  omega

/-- Folding SHA-256 compression keeps an 8-word state. -/
theorem foldl_sha256Compress_length : ∀ (blocks : List (List Nat)) (h0 : List Nat),
    h0.length = 8 → (blocks.foldl sha256Compress h0).length = 8
  | [], _, h => h
  | b :: bs, h0, h => foldl_sha256Compress_length bs _ (sha256Compress_length h0 b h)

/-- A SHA-256 digest is 32 bytes. -/
theorem sha256Bytes_length (msg : List Nat) : (sha256Bytes msg).length = 32 := by
  unfold sha256Bytes
  rw [map_be32_flatten_length, foldl_sha256Compress_length _ sha256H0 rfl]

/-- A SHA-1 round preserves the state length. -/
theorem sha1Round_length (st : List Nat) (tw : Nat × Nat) :
    (sha1Round st tw).length = st.length := by
  unfold sha1Round
  split
  · simp_all
  · rfl

/-- The SHA-1 round fold preserves the state length. -/
theorem foldl_sha1Round_length : ∀ (pairs : List (Nat × Nat)) (st : List Nat),
    (pairs.foldl sha1Round st).length = st.length
  | [], _ => rfl
  | p :: ps, st => by
    rw [List.foldl_cons, foldl_sha1Round_length ps, sha1Round_length]

/-- SHA-1 compression returns a 5-word state. -/
theorem sha1Compress_length (h0 block : List Nat) (h : h0.length = 5) :
    (sha1Compress h0 block).length = 5 := by
  unfold sha1Compress
  rw [List.length_map, List.length_zip, foldl_sha1Round_length, h]
  omega

/-- Folding SHA-1 compression keeps a 5-word state. -/
theorem foldl_sha1Compress_length : ∀ (blocks : List (List Nat)) (h0 : List Nat),
    h0.length = 5 → (blocks.foldl sha1Compress h0).length = 5
  | [], _, h => h
  | b :: bs, h0, h => foldl_sha1Compress_length bs _ (sha1Compress_length h0 b h)

/-- A SHA-1 digest is 20 bytes. -/
theorem sha1Bytes_length (msg : List Nat) : (sha1Bytes msg).length = 20 := by
  unfold sha1Bytes
  rw [map_be32_flatten_length, foldl_sha1Compress_length _ sha1H0 rfl]

/-- `mapWithIdx` preserves length. -/
theorem mapWithIdx_length (f : Nat → Nat → Nat) : ∀ (i : Nat) (l : List Nat),
    (mapWithIdx f i l).length = l.length
  | _, [] => rfl
  | i, b :: bs => by
    rw [mapWithIdx, List.length_cons, List.length_cons, mapWithIdx_length f (i + 1) bs]

/-- The 8-4-4-4-12 hyphenated form of at least 32 characters has exactly 36
characters. -/
theorem uuidGroups_length (chars : List Char) (h : 32 ≤ chars.length) :
    (uuidGroups chars).length = 36 := by
  show (chars.take 8 ++ '-' :: ((chars.drop 8).take 4) ++ '-' :: ((chars.drop 12).take 4)
    ++ '-' :: ((chars.drop 16).take 4) ++ '-' :: (chars.drop 20).take 12).length = 36
  simp only [List.length_append, List.length_cons, List.length_take, List.length_drop]
  omega

set_option maxRecDepth 100000 in
/-- C3 counterexample: the SHA-256-based and the UUIDv5-based
`deriveIntentId` are different functions — on the triple `("e", 0, "a")`
they produce two different tokens, so "every derivation of the intent id in
the program yields the same token" is false across the two
implementations. -/
theorem deriveIntentId_implementations_disagree :
    Transport.deriveIntentId "e" 0 "a" = "82017848-a5ab-0e23-816a-4bfb426848c8"
    ∧ Shared.deriveIntentId "e" 0 "a" = "64b10bc6-a11f-52fc-b750-85d29ddb0eb5"
    ∧ Transport.deriveIntentId "e" 0 "a" ≠ Shared.deriveIntentId "e" 0 "a" := by
  have h1 : Transport.deriveIntentId "e" 0 "a"
      = "82017848-a5ab-0e23-816a-4bfb426848c8" := by decide
  have h2 : Shared.deriveIntentId "e" 0 "a"
      = "64b10bc6-a11f-52fc-b750-85d29ddb0eb5" := by decide
  refine ⟨h1, h2, ?_⟩
  rw [h1, h2]
  decide

set_option maxRecDepth 100000 in
/-- C3 amended: each `deriveIntentId` implementation is a pure function of
its triple (determinism across repeated calls is definitional in this
model), and both always emit a 36-character, five-group hyphenated token —
but they are distinct functions: on the spec's own example operation
`authorize` the SHA-256-based and UUIDv5-based derivations disagree. -/
theorem deriveIntentId_same_format_different_tokens :
    (∀ (executionId : String) (itemIndex : Nat) (operation : String),
      (Transport.deriveIntentId executionId itemIndex operation).length = 36
      ∧ (Shared.deriveIntentId executionId itemIndex operation).length = 36)
    ∧ Transport.deriveIntentId "exec_abc123" 0 "authorize"
        ≠ Shared.deriveIntentId "exec_abc123" 0 "authorize" := by
  constructor
  · intro executionId itemIndex operation
    constructor
    · unfold Transport.deriveIntentId
      apply uuidGroups_length
      rw [hexLower_length, sha256Bytes_length]
      omega
    · unfold Shared.deriveIntentId uuidv5
      apply uuidGroups_length
      rw [hexLower_length, mapWithIdx_length, List.length_take, sha1Bytes_length]
      omega
  · have h1 : Transport.deriveIntentId "exec_abc123" 0 "authorize"
        = "230c0d66-3c2f-4e2a-caa3-355cc2bf130c" := by decide
    have h2 : Shared.deriveIntentId "exec_abc123" 0 "authorize"
        = "36a5184c-2ce0-581d-af3e-11c05fdef260" := by decide
    rw [h1, h2]
    decide

/-- Witness for the amended C3 at a concrete triple. -/
theorem deriveIntentId_format_witness :
    (Transport.deriveIntentId "x" 1 "gate").length = 36
    ∧ (Shared.deriveIntentId "x" 1 "gate").length = 36 :=
  deriveIntentId_same_format_different_tokens.1 "x" 1 "gate"

/- ===================================================================
   C9: parseAgentSecret lemmas
   =================================================================== -/

/-- Decoding inverts the base64 alphabet map. -/
theorem b64Val_b64Char : ∀ n, n < 64 → b64Val (b64Char n) = some n := by decide

/-- An encoded sextet survives the forgiving filter. -/
theorem filterMap_b64Char_cons (n : Nat) (h : n < 64) (cs : List Char) :
    (b64Char n :: cs).filterMap b64Val = n :: cs.filterMap b64Val := by
  simp [List.filterMap_cons, b64Val_b64Char n h]

/-- Padding is skipped by the forgiving filter. -/
theorem filterMap_pad_cons (cs : List Char) :
    ('=' :: cs).filterMap b64Val = cs.filterMap b64Val := by
  simp [List.filterMap_cons, show b64Val '=' = none from rfl]

/-- Round trip: Node's forgiving base64 decode inverts base64 encoding of a
byte sequence. -/
theorem nodeBase64Decode_encode : ∀ bytes : List Nat, (∀ b ∈ bytes, b < 256) →
    nodeBase64Decode (b64EncGroups bytes) = bytes := by
  intro bytes
  induction bytes using b64EncGroups.induct with
  | case1 b1 b2 b3 rest ih =>
    intro hb
    have h1 : b1 < 256 := hb b1 (by simp)
    have h2 : b2 < 256 := hb b2 (by simp)
    have h3 : b3 < 256 := hb b3 (by simp)
    rw [b64EncGroups]
    unfold nodeBase64Decode
    rw [filterMap_b64Char_cons _ (by omega), filterMap_b64Char_cons _ (by omega),
        filterMap_b64Char_cons _ (by omega), filterMap_b64Char_cons _ (by omega)]
    rw [b64Groups]
    have e1 : b1 / 4 * 4 + ((b1 % 4) * 16 + b2 / 16) / 16 = b1 := by omega
    have e2 : ((b1 % 4) * 16 + b2 / 16) % 16 * 16 + ((b2 % 16) * 4 + b3 / 64) / 4 = b2 := by
      omega
    have e3 : ((b2 % 16) * 4 + b3 / 64) % 4 * 64 + b3 % 64 = b3 := by omega
    rw [e1, e2, e3]
    have hrest := ih (fun b hbm => hb b (by simp [hbm]))
    unfold nodeBase64Decode at hrest
    rw [hrest]
  | case2 b1 b2 =>
    intro hb
    have h1 : b1 < 256 := hb b1 (by simp)
    have h2 : b2 < 256 := hb b2 (by simp)
    rw [b64EncGroups]
    unfold nodeBase64Decode
    rw [filterMap_b64Char_cons _ (by omega), filterMap_b64Char_cons _ (by omega),
        filterMap_b64Char_cons _ (by omega), filterMap_pad_cons]
    rw [show (([] : List Char).filterMap b64Val) = [] from rfl]
    rw [b64Groups]
    have e1 : b1 / 4 * 4 + ((b1 % 4) * 16 + b2 / 16) / 16 = b1 := by omega
    have e2 : ((b1 % 4) * 16 + b2 / 16) % 16 * 16 + (b2 % 16) * 4 / 4 = b2 := by omega
    rw [e1, e2]
  | case3 b1 =>
    intro hb
    have h1 : b1 < 256 := hb b1 (by simp)
    rw [b64EncGroups]
    unfold nodeBase64Decode
    rw [filterMap_b64Char_cons _ (by omega), filterMap_b64Char_cons _ (by omega),
        filterMap_pad_cons, filterMap_pad_cons]
    rw [show (([] : List Char).filterMap b64Val) = [] from rfl]
    rw [b64Groups]
    have e1 : b1 / 4 * 4 + (b1 % 4) * 16 / 16 = b1 := by omega
    rw [e1]
  | case4 =>
    intro _
    rfl

/-- Decoding inverts the lowercase hex digit map. -/
theorem hexVal_hexDigitChar : ∀ n, n < 16 → hexVal (hexDigitChar n) = some n := by decide

/-- One step of the hex decoder on a valid digit pair. -/
theorem nodeHexDecode_cons (c1 c2 : Char) (hi lo : Nat) (h1 : hexVal c1 = some hi)
    (h2 : hexVal c2 = some lo) (rest : List Char) :
    nodeHexDecode (c1 :: c2 :: rest) = (hi * 16 + lo) :: nodeHexDecode rest := by
  conv_lhs => rw [nodeHexDecode.eq_def]
  simp [h1, h2]

/-- Round trip: the hex decoder inverts lowercase hex encoding. -/
theorem nodeHexDecode_hexLower : ∀ bytes : List Nat, (∀ b ∈ bytes, b < 256) →
    nodeHexDecode (hexLower bytes) = bytes := by
  intro bytes
  induction bytes with
  | nil => intro _; rfl
  | cons b bs ih =>
    intro hb
    have hblt : b < 256 := hb b (by simp)
    rw [hexLower, nodeHexDecode_cons _ _ _ _ (hexVal_hexDigitChar _ (by omega))
      (hexVal_hexDigitChar _ (by omega))]
    rw [show b / 16 * 16 + b % 16 = b from by omega]
    rw [ih (fun x hx => hb x (by simp [hx]))]

/-- Every UTF-8 code unit is a byte. -/
theorem utf8EncodeChar_lt (c : Char) : ∀ b ∈ utf8EncodeChar c, b < 256 := by
  intro b hb
  have hval := char_toNat_valid c
  unfold utf8EncodeChar at hb
  split at hb <;> [skip; split at hb] <;> [skip; skip; split at hb] <;>
    simp at hb <;> omega

/-- Every byte of an encoded string is a byte. -/
theorem utf8Encode_lt (l : List Char) : ∀ b ∈ utf8Encode l, b < 256 := by
  intro b hb
  rw [utf8Encode, List.mem_flatten] at hb
  obtain ⟨bs, hbs, hbmem⟩ := hb
  rw [List.mem_map] at hbs
  obtain ⟨c, _, rfl⟩ := hbs
  exact utf8EncodeChar_lt c b hbmem

/-- Decoder step: ASCII byte. -/
theorem utf8Decode_ascii (b0 : Nat) (h : b0 < 128) (rest : List Nat) :
    utf8Decode (b0 :: rest) = Char.ofNat b0 :: utf8Decode rest := by
  conv_lhs => rw [utf8Decode.eq_def]
  simp [h]

/-- Decoder step: well-formed 2-byte sequence. -/
theorem utf8Decode_two (b0 b1 : Nat) (h : 194 ≤ b0 ∧ b0 ≤ 223) (h1 : isCont b1 = true)
    (rest : List Nat) :
    utf8Decode (b0 :: b1 :: rest)
      = Char.ofNat ((b0 - 192) * 64 + (b1 - 128)) :: utf8Decode rest := by
  conv_lhs => rw [utf8Decode.eq_def]
  simp [show ¬ b0 < 128 by omega, h, h1]

/-- Decoder step: well-formed 3-byte sequence. -/
theorem utf8Decode_three (b0 b1 b2 : Nat) (h : 224 ≤ b0 ∧ b0 ≤ 239)
    (hb1 : cont2Lo b0 ≤ b1 ∧ b1 ≤ cont2Hi b0) (hb2 : isCont b2 = true) (rest : List Nat) :
    utf8Decode (b0 :: b1 :: b2 :: rest)
      = Char.ofNat ((b0 - 224) * 4096 + (b1 - 128) * 64 + (b2 - 128)) :: utf8Decode rest := by
  conv_lhs => rw [utf8Decode.eq_def]
  simp [show ¬ b0 < 128 by omega, show ¬ (194 ≤ b0 ∧ b0 ≤ 223) by omega, h, hb1, hb2]

/-- Decoder step: well-formed 4-byte sequence. -/
theorem utf8Decode_four (b0 b1 b2 b3 : Nat) (h : 240 ≤ b0 ∧ b0 ≤ 244)
    (hb1 : cont3Lo b0 ≤ b1 ∧ b1 ≤ cont3Hi b0) (hb2 : isCont b2 = true)
    (hb3 : isCont b3 = true) (rest : List Nat) :
    utf8Decode (b0 :: b1 :: b2 :: b3 :: rest)
      = Char.ofNat ((b0 - 240) * 262144 + (b1 - 128) * 4096 + (b2 - 128) * 64 + (b3 - 128))
          :: utf8Decode rest := by
  conv_lhs => rw [utf8Decode.eq_def]
  simp [show ¬ b0 < 128 by omega, show ¬ (194 ≤ b0 ∧ b0 ≤ 223) by omega,
    show ¬ (224 ≤ b0 ∧ b0 ≤ 239) by omega, h, hb1, hb2, hb3]

/-- Round trip: the WHATWG decoder inverts UTF-8 encoding. -/
theorem utf8Decode_encode : ∀ l : List Char, utf8Decode (utf8Encode l) = l
  | [] => rfl
  | c :: l => by
    have hval := char_toNat_valid c
    have hchain : utf8Encode (c :: l) = utf8EncodeChar c ++ utf8Encode l := rfl
    by_cases h1 : c.toNat < 128
    · rw [hchain, utf8EncodeChar, if_pos h1]
      show utf8Decode (c.toNat :: utf8Encode l) = c :: l
      rw [utf8Decode_ascii _ h1, Char.ofNat_toNat, utf8Decode_encode l]
    · by_cases h2 : c.toNat < 2048
      · rw [hchain, utf8EncodeChar, if_neg h1, if_pos h2]
        show utf8Decode ((192 + c.toNat / 64) :: (128 + c.toNat % 64) :: utf8Encode l)
            = c :: l
        rw [utf8Decode_two (192 + c.toNat / 64) (128 + c.toNat % 64) (by omega)
          (by simp only [isCont, Bool.and_eq_true, decide_eq_true_eq]; omega)]
        rw [show (192 + c.toNat / 64 - 192) * 64 + (128 + c.toNat % 64 - 128) = c.toNat
          from by omega]
        rw [Char.ofNat_toNat, utf8Decode_encode l]
      · by_cases h3 : c.toNat < 65536
        · rw [hchain, utf8EncodeChar, if_neg h1, if_neg h2, if_pos h3]
          show utf8Decode ((224 + c.toNat / 4096) :: (128 + c.toNat / 64 % 64)
              :: (128 + c.toNat % 64) :: utf8Encode l) = c :: l
          rw [utf8Decode_three (224 + c.toNat / 4096) (128 + c.toNat / 64 % 64)
            (128 + c.toNat % 64) (by omega)
            (by
              constructor
              · unfold cont2Lo
                split <;> omega
              · unfold cont2Hi
                split <;> omega)
            (by simp only [isCont, Bool.and_eq_true, decide_eq_true_eq]; omega)]
          rw [show (224 + c.toNat / 4096 - 224) * 4096 + (128 + c.toNat / 64 % 64 - 128) * 64
              + (128 + c.toNat % 64 - 128) = c.toNat from by omega]
          rw [Char.ofNat_toNat, utf8Decode_encode l]
        · rw [hchain, utf8EncodeChar, if_neg h1, if_neg h2, if_neg h3]
          show utf8Decode ((240 + c.toNat / 262144) :: (128 + c.toNat / 4096 % 64)
              :: (128 + c.toNat / 64 % 64) :: (128 + c.toNat % 64) :: utf8Encode l) = c :: l
          rw [utf8Decode_four (240 + c.toNat / 262144) (128 + c.toNat / 4096 % 64)
            (128 + c.toNat / 64 % 64) (128 + c.toNat % 64) (by omega)
            (by
              constructor
              · unfold cont3Lo
                split <;> omega
              · unfold cont3Hi
                split <;> omega)
            (by simp only [isCont, Bool.and_eq_true, decide_eq_true_eq]; omega)
            (by simp only [isCont, Bool.and_eq_true, decide_eq_true_eq]; omega)]
          rw [show (240 + c.toNat / 262144 - 240) * 262144 + (128 + c.toNat / 4096 % 64 - 128)
              * 4096 + (128 + c.toNat / 64 % 64 - 128) * 64 + (128 + c.toNat % 64 - 128)
              = c.toNat from by omega]
          rw [Char.ofNat_toNat, utf8Decode_encode l]

/-- Splitting at the separator finds the first occurrence. -/
theorem splitAtChar_append (sep : Char) : ∀ pre post : List Char, sep ∉ pre →
    splitAtChar sep (pre ++ sep :: post) = some (pre, post) := by
  intro pre post
  induction pre with
  | nil =>
    intro _
    simp [splitAtChar]
  | cons c cs ih =>
    intro h
    have hcs : ¬ c = sep := fun hc => h (by simp [hc])
    rw [List.cons_append]
    conv_lhs => rw [splitAtChar.eq_def]
    simp only [hcs, if_false]
    rw [ih (fun hm => h (by simp [hm]))]

/-- A string is its character list. -/
theorem string_mk_toList (s : String) : String.mk s.toList = s := by
  cases s
  rfl

/-- `isPrefixOf` holds on an appended extension. -/
theorem isPrefixOf_append_self (p r : List Char) : p.isPrefixOf (p ++ r) = true := by
  rw [List.isPrefixOf_iff_prefix]
  exact List.prefix_append p r

/- ===================================================================
   C9: parseAgentSecret theorems
   =================================================================== -/

/-- C9 counterexample: this secret wraps (in valid base64) the payload
`a:` followed by 65 hex digits — 64 zeros and a trailing `f`. Sixty-five hex
digits are not a well-formed 32-byte seed, yet `Buffer.from(hexSeed, 'hex')`
silently drops the lone trailing digit, the truncated seed passes the
32-byte check, and the malformed secret is accepted. -/
theorem parseAgentSecret_truncates_malformed_hex :
    parseAgentSecret ("kora_agent_sk_YTowMDAwMDAwMDAwMDAwMDAwMDAwMDAwMDAwMDAwMDAwMD"
        ++ "AwMDAwMDAwMDAwMDAwMDAwMDAwMDAwMDAwMDAwMDAwZg==")
      = .ok ("a", List.replicate 32 0) := by
  rfl

/-- C9 amended: `parseAgentSecret` fails with the dedicated errors when the
prefix is missing, when the decoded payload has no `:` separator, or when
the decoded seed is not exactly 32 bytes; base64 and hex decoding are Node's
forgiving decoders and never fail themselves (malformed hex can be silently
truncated into an accepted 32-byte seed); for every well-formed secret —
built from a colon-free agent id and a 32-byte seed — it returns exactly the
embedded agent id and seed. -/
theorem parseAgentSecret_characterization :
    (∀ s : String, "kora_agent_sk_".toList.isPrefixOf s.toList = false →
      parseAgentSecret s = .error .badPrefix)
    ∧ (∀ s : String, "kora_agent_sk_".toList.isPrefixOf s.toList = true →
        splitAtChar ':' (utf8Decode (nodeBase64Decode (s.toList.drop 14))) = none →
        parseAgentSecret s = .error .missingSeparator)
    ∧ (∀ (s : String) (idChars seedChars : List Char),
        "kora_agent_sk_".toList.isPrefixOf s.toList = true →
        splitAtChar ':' (utf8Decode (nodeBase64Decode (s.toList.drop 14)))
          = some (idChars, seedChars) →
        (nodeHexDecode seedChars).length ≠ 32 →
        parseAgentSecret s = .error (.badSeedLength (nodeHexDecode seedChars).length))
    ∧ (∀ (agentId : String) (seed : List Nat),
        (∀ b ∈ seed, b < 256) → seed.length = 32 → ':' ∉ agentId.toList →
        parseAgentSecret ("kora_agent_sk_"
            ++ String.mk (b64EncGroups (utf8Encode (agentId.toList ++ ':' :: hexLower seed))))
          = .ok (agentId, seed)) := by
  refine ⟨?_, ?_, ?_, ?_⟩
  · intro s h
    unfold parseAgentSecret
    rw [if_neg (by rw [h]; exact Bool.false_ne_true)]
  · intro s h hsplit
    unfold parseAgentSecret
    rw [if_pos h, hsplit]
  · intro s idChars seedChars h hsplit hlen
    unfold parseAgentSecret
    rw [if_pos h, hsplit]
    simp only [if_neg hlen]
  · intro agentId seed hb hlen hcolon
    unfold parseAgentSecret
    have hdata : ("kora_agent_sk_" ++ String.mk
          (b64EncGroups (utf8Encode (agentId.toList ++ ':' :: hexLower seed)))).toList
        = "kora_agent_sk_".toList
            ++ b64EncGroups (utf8Encode (agentId.toList ++ ':' :: hexLower seed)) := by
      cases agentId
      rfl
    rw [hdata, if_pos (isPrefixOf_append_self _ _)]
    rw [show (14 : Nat) = ("kora_agent_sk_".toList).length from rfl, List.drop_left]
    rw [nodeBase64Decode_encode _ (utf8Encode_lt _), utf8Decode_encode]
    rw [splitAtChar_append ':' agentId.toList (hexLower seed) hcolon]
    show (if (nodeHexDecode (hexLower seed)).length = 32
        then Except.ok (String.mk agentId.toList, nodeHexDecode (hexLower seed))
        else Except.error (SecretError.badSeedLength (nodeHexDecode (hexLower seed)).length))
      = Except.ok (agentId, seed)
    rw [nodeHexDecode_hexLower seed hb, string_mk_toList, if_pos hlen]

/-- Witness for the amended C9: a rejected prefixless input and a round
trip through a concrete well-formed secret. -/
theorem parseAgentSecret_characterization_witness :
    parseAgentSecret "not_a_secret" = .error .badPrefix
    ∧ parseAgentSecret ("kora_agent_sk_" ++ String.mk (b64EncGroups
        (utf8Encode ("agent_1".toList ++ ':' :: hexLower (List.replicate 32 171)))))
      = .ok ("agent_1", List.replicate 32 171) :=
  ⟨parseAgentSecret_characterization.1 "not_a_secret" (by decide),
   parseAgentSecret_characterization.2.2.2 "agent_1" (List.replicate 32 171)
     (by decide) (by decide) (by decide)⟩

/-- Witness for C10: a concrete nested reordering of the same contents
yields the identical canonical encoding. -/
theorem canonicalize_order_independent_witness :
    canonicalize [("b", J.jint 2),
                  ("a", J.jobj [("y", J.jint 1), ("x", J.jarr [J.jint 3, J.jstr "s"])])]
      = canonicalize [("a", J.jobj [("x", J.jarr [J.jint 3, J.jstr "s"]), ("y", J.jint 1)]),
                      ("b", J.jint 2)] :=
  canonicalize_order_independent _ _
    (equivJ_obj₂ "b" "a" (J.jint 2)
      (J.jobj [("y", J.jint 1), ("x", J.jarr [J.jint 3, J.jstr "s"])])
      (J.jint 2)
      (J.jobj [("x", J.jarr [J.jint 3, J.jstr "s"]), ("y", J.jint 1)])
      (by decide) (EquivJ.refl _)
      (equivJ_obj₂ "y" "x" (J.jint 1) (J.jarr [J.jint 3, J.jstr "s"])
        (J.jint 1) (J.jarr [J.jint 3, J.jstr "s"]) (by decide)
        (EquivJ.refl _) (EquivJ.refl _)))

end KoraModel
